import Mathlib

/-!
Verification development for the ECG clinical simulation engine
(`backend/` Python sources).  The Python code is shallowly embedded:
real-valued quantities (Python floats that the code only ever compares,
adds, divides and rounds) are modelled by `ℚ`; Python lists become
`List`; `None`-able values become `Option`; dataclasses / pydantic
models become structures.  Presentation-only float formatting inside
f-strings (e.g. percentage rendering) is outside the scope of every
claim and is not modelled; string fields that the claims inspect are
modelled exactly.  `round(x, 3)` is modelled by `round3` below; on every
value the classifier can produce, Python's round-half-even and this
rounding agree because no reachable value lies at a half-thousandth
(proved via the `base_ok_table` lemma).
-/

namespace EKG

/-- Rounding to three decimals, modelling Python `round(x, 3)`. -/
def round3 (q : ℚ) : ℚ := (round (1000 * q) : ℚ) / 1000

/-- `models/schemas.py` `MeasurementValue`. -/
structure MeasurementValue where
  value : ℚ
  unit : String
  method : String
  confidence : ℚ
deriving DecidableEq

/-- `models/schemas.py` `ProbabilityTier`. -/
inductive ProbabilityTier where
  | high
  | moderate
  | possible
deriving DecidableEq

/-- `models/schemas.py` `TWaveMorphology`. -/
inductive TWaveMorphology where
  | upright
  | inverted
  | biphasic
  | flat
deriving DecidableEq

/-- `models/schemas.py` `PWaveMorphology`. -/
inductive PWaveMorphology where
  | normal
  | peaked
  | bifid
  | absent
  | retrograde
deriving DecidableEq

/-- `models/schemas.py` `PWaveDetail`. -/
structure PWaveDetail where
  lead_name : String
  detected : Bool
  duration_ms : Option MeasurementValue
  morphology : PWaveMorphology
  amplitude_mv : Option MeasurementValue
deriving DecidableEq

/-- `models/schemas.py` `STDeviation` (`measurement_point` is the constant
string `"J+60ms"` in every construction site and is dropped here). -/
structure STDeviation where
  lead_name : String
  deviation_mv : ℚ
deriving DecidableEq

/-- `models/schemas.py` `TWaveDetail`. -/
structure TWaveDetail where
  lead_name : String
  polarity : TWaveMorphology
  amplitude_mv : Option ℚ
deriving DecidableEq

/-- `models/schemas.py` `Measurements`. -/
structure Measurements where
  rate : MeasurementValue
  rhythm_regular : Bool
  rhythm_description : String
  p_waves : List PWaveDetail
  pr_interval : Option MeasurementValue
  qrs_duration : MeasurementValue
  qt_interval : MeasurementValue
  qtc_bazett : MeasurementValue
  qtc_fridericia : MeasurementValue
  axis_degrees : MeasurementValue
  axis_quadrant : String
  precordial_transition : Option String
  lvh_voltage_criteria : Bool
  lvh_criteria_detail : Option String
  rvh_voltage_criteria : Bool
  rvh_criteria_detail : Option String
  st_deviations : List STDeviation
  t_wave_details : List TWaveDetail
deriving DecidableEq

/-- `models/schemas.py` `SupportingEvidence` (the free-text `detail`
field carries interpolated floats and is presentation-only; dropped). -/
structure SupportingEvidence where
  criterion : String
  met : Bool
deriving DecidableEq

/-- `models/schemas.py` `DifferentialDiagnosis`. -/
structure DifferentialDiagnosis where
  name : String
  icd10_code : Option String
  probability : ℚ
  probability_tier : ProbabilityTier
  supporting_criteria : List SupportingEvidence
  absent_criteria : List String
  recommended_discriminating_tests : List String
deriving DecidableEq

/-- `models/schemas.py` `ClassifierOutput`. -/
structure ClassifierOutput where
  primary_finding : String
  differentials : List DifferentialDiagnosis
  rhythm : String
  conduction_abnormalities : List String
deriving DecidableEq

/-- `interpreter/classifier.py` `CriteriaResult` (again without the
presentation-only `detail` string). -/
structure CriteriaResult where
  name : String
  met : Bool
deriving DecidableEq

/-- `interpreter/classifier.py` `FindingCandidate`. -/
structure FindingCandidate where
  name : String
  display_name : String
  icd10 : Option String
  criteria : List CriteriaResult
  absent : List String
  tests : List String
  base_probability : ℚ
deriving DecidableEq

/-- `interpreter/classifier.py` `_st_elevation_in_leads` (threshold is
passed explicitly; the Python default is 0.1). -/
def st_elevation_in_leads (m : Measurements) (lead_names : List String)
    (threshold : ℚ) : Bool :=
  decide (2 ≤ (m.st_deviations.countP (fun st =>
    lead_names.contains st.lead_name && decide (threshold ≤ st.deviation_mv))))

/-- `interpreter/classifier.py` `_st_depression_in_leads`. -/
def st_depression_in_leads (m : Measurements) (lead_names : List String)
    (threshold : ℚ) : Bool :=
  decide (2 ≤ (m.st_deviations.countP (fun st =>
    lead_names.contains st.lead_name && decide (st.deviation_mv ≤ -threshold))))

/-- `interpreter/classifier.py` `_t_inverted_in_leads`. -/
def t_inverted_in_leads (m : Measurements) (lead_names : List String) : Bool :=
  decide (2 ≤ (m.t_wave_details.countP (fun tw =>
    lead_names.contains tw.lead_name && decide (tw.polarity = .inverted))))

/-- `interpreter/classifier.py` `_get_st_deviation`. -/
def get_st_deviation (m : Measurements) (lead_name : String) : ℚ :=
  match m.st_deviations.find? (fun st => st.lead_name == lead_name) with
  | some st => st.deviation_mv
  | none => 0

/-- `interpreter/classifier.py` `_p_waves_present`. -/
def p_waves_present (m : Measurements) : Bool :=
  m.p_waves.any (fun pw => pw.lead_name == "II" && pw.detected)

/-- `interpreter/classifier.py` `_p_waves_absent`. -/
def p_waves_absent (m : Measurements) : Bool :=
  ! p_waves_present m

/-- Met-criteria count used by every checker. -/
def metCount (criteria : List CriteriaResult) : ℕ :=
  criteria.countP (fun c => c.met)

/-- Absent-criteria names used by every checker. -/
def absentNames (criteria : List CriteriaResult) : List String :=
  (criteria.filter (fun c => !c.met)).map (fun c => c.name)

/-- `interpreter/classifier.py` `_check_normal_sinus`. -/
def check_normal_sinus (m : Measurements) : FindingCandidate :=
  let criteria : List CriteriaResult := [
    ⟨"Rate 60-100 bpm", decide (60 ≤ m.rate.value ∧ m.rate.value ≤ 100)⟩,
    ⟨"Regular rhythm", m.rhythm_regular⟩,
    ⟨"P waves present in lead II", p_waves_present m⟩,
    ⟨"PR interval 120-200ms",
      match m.pr_interval with
      | some pr => decide (120 ≤ pr.value ∧ pr.value ≤ 200)
      | none => false⟩,
    ⟨"QRS < 120ms", decide (0 < m.qrs_duration.value ∧ m.qrs_duration.value < 120)⟩,
    ⟨"Normal axis (-30 to +90)",
      decide (-30 ≤ m.axis_degrees.value ∧ m.axis_degrees.value ≤ 90)⟩]
  ⟨"normal_sinus", "Normal sinus rhythm", none, criteria, absentNames criteria, [],
    (metCount criteria : ℚ) / (criteria.length : ℚ)⟩

/-- `interpreter/classifier.py` `_check_sinus_tachycardia`. -/
def check_sinus_tachycardia (m : Measurements) : FindingCandidate :=
  let criteria : List CriteriaResult := [
    ⟨"Rate > 100 bpm", decide (100 < m.rate.value)⟩,
    ⟨"Regular rhythm", m.rhythm_regular⟩,
    ⟨"P waves present", p_waves_present m⟩,
    ⟨"Normal PR interval",
      match m.pr_interval with
      | some pr => decide (120 ≤ pr.value ∧ pr.value ≤ 200)
      | none => false⟩]
  ⟨"sinus_tachycardia", "Pattern consistent with sinus tachycardia", some "R00.0",
    criteria, absentNames criteria,
    ["Clinical correlation", "Thyroid function tests if persistent"],
    (metCount criteria : ℚ) / (criteria.length : ℚ)⟩

/-- `interpreter/classifier.py` `_check_sinus_bradycardia`. -/
def check_sinus_bradycardia (m : Measurements) : FindingCandidate :=
  let criteria : List CriteriaResult := [
    ⟨"Rate < 60 bpm", decide (m.rate.value < 60 ∧ 0 < m.rate.value)⟩,
    ⟨"Regular rhythm", m.rhythm_regular⟩,
    ⟨"P waves present", p_waves_present m⟩]
  ⟨"sinus_bradycardia", "Pattern consistent with sinus bradycardia", some "R00.1",
    criteria, absentNames criteria,
    ["Medication review", "Thyroid function tests"],
    (metCount criteria : ℚ) / (criteria.length : ℚ)⟩

/-- `interpreter/classifier.py` `_check_atrial_fibrillation`. -/
def check_atrial_fibrillation (m : Measurements) : FindingCandidate :=
  let criteria : List CriteriaResult := [
    ⟨"Irregularly irregular rhythm", ! m.rhythm_regular⟩,
    ⟨"Absent discrete P waves", p_waves_absent m⟩,
    ⟨"Variable RR intervals", ! m.rhythm_regular⟩]
  ⟨"atrial_fibrillation", "Pattern consistent with atrial fibrillation", some "I48.91",
    criteria, absentNames criteria,
    ["Echocardiogram", "Thyroid function", "CHA2DS2-VASc scoring"],
    (metCount criteria : ℚ) / (criteria.length : ℚ)⟩

/-- `interpreter/classifier.py` `_check_atrial_flutter`. -/
def check_atrial_flutter (m : Measurements) : FindingCandidate :=
  let typical_flutter_rate :=
    decide (0 < m.rate.value ∧
      ((140 ≤ m.rate.value ∧ m.rate.value ≤ 160) ∨
       (90 ≤ m.rate.value ∧ m.rate.value ≤ 110) ∨
       (70 ≤ m.rate.value ∧ m.rate.value ≤ 80)))
  let criteria : List CriteriaResult := [
    ⟨"Regular or regularly irregular rhythm", true⟩,
    ⟨"Rate suggestive of flutter (~150, ~100, ~75 bpm)", typical_flutter_rate⟩,
    ⟨"Sawtooth pattern (II, III, aVF)", false⟩]
  ⟨"atrial_flutter", "Pattern consistent with atrial flutter", some "I48.92",
    criteria, absentNames criteria,
    ["Adenosine challenge to unmask flutter waves", "Echocardiogram"],
    (metCount criteria : ℚ) / (criteria.length : ℚ) * 0.7⟩

/-- `interpreter/classifier.py` `_check_svt`. -/
def check_svt (m : Measurements) : FindingCandidate :=
  let criteria : List CriteriaResult := [
    ⟨"Rate > 150 bpm", decide (150 < m.rate.value)⟩,
    ⟨"Regular rhythm", m.rhythm_regular⟩,
    ⟨"Narrow QRS < 120ms",
      decide (m.qrs_duration.value < 120 ∧ 0 < m.qrs_duration.value)⟩,
    ⟨"P waves absent or retrograde", p_waves_absent m⟩]
  ⟨"svt", "Pattern consistent with supraventricular tachycardia", some "I47.1",
    criteria, absentNames criteria,
    ["Adenosine trial", "Electrophysiology study if recurrent"],
    (metCount criteria : ℚ) / (criteria.length : ℚ)⟩

/-- `interpreter/classifier.py` `_check_rbbb`. -/
def check_rbbb (m : Measurements) : FindingCandidate :=
  let wide_qrs := decide (120 ≤ m.qrs_duration.value ∧ 0 < m.qrs_duration.value)
  let v1_terminal_positive := m.t_wave_details.any (fun tw =>
    tw.lead_name == "V1" && decide (tw.polarity = .inverted))
  let criteria : List CriteriaResult := [
    ⟨"QRS >= 120ms", wide_qrs⟩,
    ⟨"RSR' pattern in V1/V2", v1_terminal_positive⟩,
    ⟨"Wide S wave in I and V6", true⟩]
  ⟨"rbbb", "Pattern consistent with right bundle branch block", some "I45.10",
    criteria, absentNames criteria,
    ["Echocardiogram to assess RV function"],
    (metCount criteria : ℚ) / (criteria.length : ℚ) * 0.8⟩

/-- `interpreter/classifier.py` `_check_lbbb` (the local `v1_s_deep` in the
source is computed but unused and is not modelled). -/
def check_lbbb (m : Measurements) : FindingCandidate :=
  let wide_qrs := decide (120 ≤ m.qrs_duration.value ∧ 0 < m.qrs_duration.value)
  let criteria : List CriteriaResult := [
    ⟨"QRS >= 120ms", wide_qrs⟩,
    ⟨"Broad/notched R in I, aVL, V5-V6", true⟩,
    ⟨"Deep S in V1-V2", true⟩,
    ⟨"Absence of Q waves in lateral leads", true⟩]
  ⟨"lbbb", "Pattern consistent with left bundle branch block", some "I44.7",
    criteria, absentNames criteria,
    ["Echocardiogram", "Assess for cardiac resynchronization therapy candidacy"],
    (metCount criteria : ℚ) / (criteria.length : ℚ) * (if wide_qrs then 0.9 else 0.1)⟩

/-- `interpreter/classifier.py` `_check_lafb`. -/
def check_lafb (m : Measurements) : FindingCandidate :=
  let left_axis := decide (m.axis_degrees.value < -30)
  let narrow_qrs := decide (m.qrs_duration.value < 120 ∧ 0 < m.qrs_duration.value)
  let criteria : List CriteriaResult := [
    ⟨"Left axis deviation beyond -30°", left_axis⟩,
    ⟨"QRS < 120ms", narrow_qrs⟩,
    ⟨"Small q in I, aVL", true⟩,
    ⟨"Small r in II, III, aVF", true⟩]
  ⟨"lafb", "Pattern consistent with left anterior fascicular block", some "I44.4",
    criteria, absentNames criteria,
    ["Echocardiogram if new finding"],
    (metCount criteria : ℚ) / (criteria.length : ℚ) * (if left_axis then 0.9 else 0.1)⟩

/-- `interpreter/classifier.py` `_check_lpfb`. -/
def check_lpfb (m : Measurements) : FindingCandidate :=
  let right_axis := decide (90 < m.axis_degrees.value)
  let narrow_qrs := decide (m.qrs_duration.value < 120 ∧ 0 < m.qrs_duration.value)
  let criteria : List CriteriaResult := [
    ⟨"Right axis deviation beyond +90°", right_axis⟩,
    ⟨"QRS < 120ms", narrow_qrs⟩,
    ⟨"No RVH criteria", ! m.rvh_voltage_criteria⟩]
  ⟨"lpfb", "Pattern consistent with left posterior fascicular block", some "I44.5",
    criteria, absentNames criteria,
    ["Rule out RVH, lateral MI, chronic lung disease"],
    (metCount criteria : ℚ) / (criteria.length : ℚ) * (if right_axis then 0.8 else 0.1)⟩

/-- `interpreter/classifier.py` `_check_first_degree_av_block`. -/
def check_first_degree_av_block (m : Measurements) : FindingCandidate :=
  let prolonged_pr :=
    match m.pr_interval with
    | some pr => decide (200 < pr.value)
    | none => false
  let criteria : List CriteriaResult := [
    ⟨"PR > 200ms", prolonged_pr⟩,
    ⟨"Consistent PR prolongation (every beat)", m.rhythm_regular⟩,
    ⟨"P waves present before each QRS", p_waves_present m⟩]
  ⟨"first_degree_av_block", "Pattern consistent with first degree AV block", some "I44.0",
    criteria, absentNames criteria,
    ["Monitor for progression", "Review medications (beta-blockers, CCBs, digoxin)"],
    (metCount criteria : ℚ) / (criteria.length : ℚ) * (if prolonged_pr then 0.9 else 0)⟩

/-- `interpreter/classifier.py` `_check_second_degree_mobitz_i`. -/
def check_second_degree_mobitz_i (m : Measurements) : FindingCandidate :=
  let criteria : List CriteriaResult := [
    ⟨"Irregular rhythm", ! m.rhythm_regular⟩,
    ⟨"P waves present", p_waves_present m⟩,
    ⟨"PR progressively prolonging", false⟩]
  ⟨"second_degree_mobitz_i",
    "Finding suggestive of second degree AV block, Mobitz type I (Wenckebach)",
    some "I44.1", criteria, absentNames criteria,
    ["Continuous telemetry monitoring", "Assess for reversible causes"],
    (metCount criteria : ℚ) / (criteria.length : ℚ) * 0.4⟩

/-- `interpreter/classifier.py` `_check_second_degree_mobitz_ii`. -/
def check_second_degree_mobitz_ii (m : Measurements) : FindingCandidate :=
  let criteria : List CriteriaResult := [
    ⟨"Irregular rhythm with dropped beats", ! m.rhythm_regular⟩,
    ⟨"Constant PR when conducted", true⟩,
    ⟨"P waves present", p_waves_present m⟩,
    ⟨"QRS may be wide",
      decide (0 < m.qrs_duration.value ∧ 120 ≤ m.qrs_duration.value)⟩]
  ⟨"second_degree_mobitz_ii",
    "Finding suggestive of second degree AV block, Mobitz type II",
    some "I44.1", criteria, absentNames criteria,
    ["Urgent cardiology consultation", "Prepare for possible pacing"],
    (metCount criteria : ℚ) / (criteria.length : ℚ) * 0.3⟩

/-- `interpreter/classifier.py` `_check_third_degree_av_block`. -/
def check_third_degree_av_block (m : Measurements) : FindingCandidate :=
  let slow_rate := decide (0 < m.rate.value ∧ m.rate.value < 50)
  let criteria : List CriteriaResult := [
    ⟨"Regular R-R intervals", m.rhythm_regular⟩,
    ⟨"Regular P-P intervals (independent of QRS)", true⟩,
    ⟨"No fixed PR relationship", false⟩,
    ⟨"Ventricular rate < 50 bpm", slow_rate⟩]
  ⟨"third_degree_av_block",
    "Pattern consistent with third degree (complete) AV block",
    some "I44.2", criteria, absentNames criteria,
    ["Immediate cardiology consultation", "Transcutaneous pacing readiness"],
    (metCount criteria : ℚ) / (criteria.length : ℚ) * (if slow_rate then 0.6 else 0.1)⟩

/-- `interpreter/classifier.py` `_check_wpw`. -/
def check_wpw (m : Measurements) : FindingCandidate :=
  let short_pr :=
    match m.pr_interval with
    | some pr => decide (pr.value < 120)
    | none => false
  let wide_qrs := decide (100 < m.qrs_duration.value ∧ 0 < m.qrs_duration.value)
  let criteria : List CriteriaResult := [
    ⟨"Short PR < 120ms", short_pr⟩,
    ⟨"Delta wave (slurred QRS upstroke)", false⟩,
    ⟨"Wide QRS > 100ms", wide_qrs⟩]
  ⟨"wpw", "Pattern consistent with Wolff-Parkinson-White", some "I45.6",
    criteria, absentNames criteria,
    ["Electrophysiology study", "Avoid AV nodal blocking agents if confirmed"],
    (metCount criteria : ℚ) / (criteria.length : ℚ) * (if short_pr then 0.7 else 0.1)⟩

/-- `interpreter/classifier.py` `_check_lvh`. -/
def check_lvh (m : Measurements) : FindingCandidate :=
  let criteria : List CriteriaResult := [
    ⟨"Voltage criteria met", m.lvh_voltage_criteria⟩,
    ⟨"Left axis deviation", decide (m.axis_degrees.value < -15)⟩,
    ⟨"ST-T changes in lateral leads (strain pattern)",
      t_inverted_in_leads m ["I", "aVL", "V5", "V6"]⟩]
  ⟨"lvh", "Finding suggestive of left ventricular hypertrophy", some "I51.7",
    criteria, absentNames criteria,
    ["Echocardiogram for wall thickness measurement"],
    (metCount criteria : ℚ) / (criteria.length : ℚ) *
      (if m.lvh_voltage_criteria then 0.9 else 0.2)⟩

/-- `interpreter/classifier.py` `_check_rvh`. -/
def check_rvh (m : Measurements) : FindingCandidate :=
  let criteria : List CriteriaResult := [
    ⟨"RVH voltage criteria met", m.rvh_voltage_criteria⟩,
    ⟨"Right axis deviation > +90°", decide (90 < m.axis_degrees.value)⟩,
    ⟨"T inversion in V1-V3 (strain)", t_inverted_in_leads m ["V1", "V2", "V3"]⟩]
  ⟨"rvh", "Finding suggestive of right ventricular hypertrophy", some "I51.7",
    criteria, absentNames criteria,
    ["Echocardiogram", "Consider pulmonary evaluation"],
    (metCount criteria : ℚ) / (criteria.length : ℚ)⟩

/-- `interpreter/classifier.py` `_check_inferior_stemi`. -/
def check_inferior_stemi (m : Measurements) : FindingCandidate :=
  let inf_elevation := st_elevation_in_leads m ["II", "III", "aVF"] 0.1
  let reciprocal := st_depression_in_leads m ["I", "aVL"] 0.1
  let criteria : List CriteriaResult := [
    ⟨"ST elevation >= 1mm in II, III, aVF", inf_elevation⟩,
    ⟨"Reciprocal ST depression in I, aVL", reciprocal⟩,
    ⟨"Acute symptom context", true⟩]
  ⟨"inferior_stemi",
    "Pattern consistent with acute inferior ST-elevation myocardial injury",
    some "I21.19", criteria, absentNames criteria,
    ["Emergent cardiac catheterization", "Serial troponins",
     "Right-sided leads to assess RV involvement"],
    (metCount criteria : ℚ) / (criteria.length : ℚ) * (if inf_elevation then 0.9 else 0)⟩

/-- `interpreter/classifier.py` `_check_anterior_stemi`. -/
def check_anterior_stemi (m : Measurements) : FindingCandidate :=
  let ant_elevation := st_elevation_in_leads m ["V1", "V2", "V3", "V4"] 0.1
  let reciprocal := st_depression_in_leads m ["II", "III", "aVF"] 0.1
  let criteria : List CriteriaResult := [
    ⟨"ST elevation >= 1mm in V1-V4", ant_elevation⟩,
    ⟨"Reciprocal ST depression in inferior leads", reciprocal⟩]
  ⟨"anterior_stemi",
    "Pattern consistent with acute anterior ST-elevation myocardial injury",
    some "I21.09", criteria, absentNames criteria,
    ["Emergent cardiac catheterization", "Serial troponins"],
    (metCount criteria : ℚ) / (criteria.length : ℚ) * (if ant_elevation then 0.9 else 0)⟩

/-- `interpreter/classifier.py` `_check_lateral_stemi`. -/
def check_lateral_stemi (m : Measurements) : FindingCandidate :=
  let lat_elevation := st_elevation_in_leads m ["I", "aVL", "V5", "V6"] 0.1
  let criteria : List CriteriaResult := [
    ⟨"ST elevation in I, aVL, V5, V6", lat_elevation⟩,
    ⟨"Reciprocal changes in inferior leads",
      st_depression_in_leads m ["II", "III", "aVF"] 0.1⟩]
  ⟨"lateral_stemi",
    "Pattern consistent with acute lateral ST-elevation myocardial injury",
    some "I21.29", criteria, absentNames criteria,
    ["Emergent cardiac catheterization", "Serial troponins"],
    (metCount criteria : ℚ) / (criteria.length : ℚ) * (if lat_elevation then 0.9 else 0)⟩

/-- `interpreter/classifier.py` `_check_posterior_stemi`. -/
def check_posterior_stemi (m : Measurements) : FindingCandidate :=
  let ant_depression := st_depression_in_leads m ["V1", "V2", "V3"] 0.1
  let criteria : List CriteriaResult := [
    ⟨"ST depression in V1-V3 (mirror image of posterior elevation)", ant_depression⟩,
    ⟨"Tall R waves in V1-V2", true⟩,
    ⟨"Upright T waves in V1-V3", true⟩]
  ⟨"posterior_stemi",
    "Pattern consistent with acute posterior ST-elevation myocardial injury",
    some "I21.29", criteria, absentNames criteria,
    ["Posterior leads (V7-V9)", "Emergent cardiac catheterization"],
    (metCount criteria : ℚ) / (criteria.length : ℚ) * (if ant_depression then 0.7 else 0)⟩

/-- `interpreter/classifier.py` `_check_nstemi`. -/
def check_nstemi (m : Measurements) : FindingCandidate :=
  let any_depression := m.st_deviations.any (fun st => decide (st.deviation_mv < -0.05))
  let t_inversion := m.t_wave_details.any (fun tw =>
    (["I", "II", "aVL", "V2", "V3", "V4", "V5", "V6"] : List String).contains tw.lead_name
      && decide (tw.polarity = .inverted))
  let criteria : List CriteriaResult := [
    ⟨"ST depression in 2+ leads", any_depression⟩,
    ⟨"T wave inversions", t_inversion⟩,
    ⟨"No significant ST elevation",
      ! m.st_deviations.any (fun st => decide (0.1 < st.deviation_mv))⟩]
  ⟨"nstemi", "Pattern consistent with non-ST-elevation myocardial injury",
    some "I21.4", criteria, absentNames criteria,
    ["Serial troponins", "Cardiology consultation", "Risk stratification (TIMI/GRACE)"],
    (metCount criteria : ℚ) / (criteria.length : ℚ) * 0.5⟩

/-- `interpreter/classifier.py` `_check_early_repolarization`. -/
def check_early_repolarization (m : Measurements) : FindingCandidate :=
  let precordial_elevation := st_elevation_in_leads m ["V2", "V3", "V4", "V5"] 0.1
  let criteria : List CriteriaResult := [
    ⟨"J-point elevation in precordial leads", precordial_elevation⟩,
    ⟨"Concave upward ST morphology", true⟩,
    ⟨"Young patient / asymptomatic", true⟩]
  ⟨"early_repolarization", "Pattern consistent with early repolarization", none,
    criteria, absentNames criteria,
    ["Clinical correlation — typically benign in young patients"],
    (metCount criteria : ℚ) / (criteria.length : ℚ) * 0.5⟩

/-- `interpreter/classifier.py` `_check_pericarditis`. -/
def check_pericarditis (m : Measurements) : FindingCandidate :=
  let diffuse_elevation :=
    decide (4 ≤ m.st_deviations.countP (fun st => decide (0.05 < st.deviation_mv)))
  let pr_depression :=
    decide (0 < get_st_deviation m "II" ∧ get_st_deviation m "aVR" < 0)
  let criteria : List CriteriaResult := [
    ⟨"Diffuse ST elevation (4+ leads)", diffuse_elevation⟩,
    ⟨"PR depression", pr_depression⟩,
    ⟨"ST elevation in aVR absent or depressed",
      decide (get_st_deviation m "aVR" ≤ 0)⟩]
  ⟨"pericarditis", "Pattern consistent with pericarditis", some "I30.9",
    criteria, absentNames criteria,
    ["Inflammatory markers (CRP, ESR)", "Echocardiogram for effusion",
     "Serial ECGs for stage progression"],
    (metCount criteria : ℚ) / (criteria.length : ℚ) *
      (if diffuse_elevation then 0.7 else 0.1)⟩

/-- `interpreter/classifier.py` `_check_digitalis_effect`. -/
def check_digitalis_effect (m : Measurements) : FindingCandidate :=
  let st_depression_multiple :=
    decide (3 ≤ m.st_deviations.countP (fun st => decide (st.deviation_mv < -0.05)))
  let short_qt := decide (0 < m.qt_interval.value ∧ m.qt_interval.value < 360)
  let criteria : List CriteriaResult := [
    ⟨"Scooped ST depression in multiple leads", st_depression_multiple⟩,
    ⟨"Short QT interval", short_qt⟩,
    ⟨"Possible bradycardia", decide (0 < m.rate.value ∧ m.rate.value < 65)⟩]
  ⟨"digitalis_effect", "Pattern consistent with digitalis effect", some "T46.0X5A",
    criteria, absentNames criteria,
    ["Digoxin level", "Review medication list"],
    (metCount criteria : ℚ) / (criteria.length : ℚ) * 0.5⟩

/-- `interpreter/classifier.py` `_check_hypokalemia`. -/
def check_hypokalemia (m : Measurements) : FindingCandidate :=
  let flat_t :=
    decide (2 ≤ m.t_wave_details.countP (fun tw => decide (tw.polarity = .flat)))
  let prolonged_qt := decide (0 < m.qtc_bazett.value ∧ 480 < m.qtc_bazett.value)
  let st_dep :=
    decide (2 ≤ m.st_deviations.countP (fun st => decide (st.deviation_mv < -0.05)))
  let criteria : List CriteriaResult := [
    ⟨"Flattened T waves", flat_t⟩,
    ⟨"Prolonged QTc", prolonged_qt⟩,
    ⟨"ST depression", st_dep⟩,
    ⟨"U waves present", false⟩]
  ⟨"hypokalemia", "Pattern consistent with hypokalemia", some "E87.6",
    criteria, absentNames criteria,
    ["Stat potassium level", "Magnesium level"],
    (metCount criteria : ℚ) / (criteria.length : ℚ) * 0.5⟩

/-- `interpreter/classifier.py` `_check_hyperkalemia`. -/
def check_hyperkalemia (m : Measurements) : FindingCandidate :=
  let wide_qrs := decide (0 < m.qrs_duration.value ∧ 120 < m.qrs_duration.value)
  let p_absent := p_waves_absent m
  let peaked_t :=
    decide (2 ≤ m.t_wave_details.countP (fun tw =>
      match tw.amplitude_mv with
      | some a => decide (0.5 < a)
      | none => false))
  let criteria : List CriteriaResult := [
    ⟨"Peaked/tall T waves", peaked_t⟩,
    ⟨"Widened QRS", wide_qrs⟩,
    ⟨"Flattened/absent P waves", p_absent⟩,
    ⟨"Short QT interval", decide (0 < m.qt_interval.value ∧ m.qt_interval.value < 360)⟩]
  ⟨"hyperkalemia", "Pattern consistent with hyperkalemia", some "E87.5",
    criteria, absentNames criteria,
    ["Stat potassium level", "Stat calcium if severe ECG changes",
     "Renal function assessment"],
    (metCount criteria : ℚ) / (criteria.length : ℚ) * 0.6⟩

/-- `interpreter/classifier.py` `ALL_CHECKERS`, in source order. -/
def ALL_CHECKERS : List (Measurements → FindingCandidate) := [
  check_normal_sinus,
  check_sinus_tachycardia,
  check_sinus_bradycardia,
  check_atrial_fibrillation,
  check_atrial_flutter,
  check_svt,
  check_rbbb,
  check_lbbb,
  check_lafb,
  check_lpfb,
  check_first_degree_av_block,
  check_second_degree_mobitz_i,
  check_second_degree_mobitz_ii,
  check_third_degree_av_block,
  check_wpw,
  check_lvh,
  check_rvh,
  check_inferior_stemi,
  check_anterior_stemi,
  check_lateral_stemi,
  check_posterior_stemi,
  check_nstemi,
  check_early_repolarization,
  check_pericarditis,
  check_digitalis_effect,
  check_hypokalemia,
  check_hyperkalemia]

/-- `interpreter/classifier.py` `_to_probability_tier`. -/
def to_probability_tier (prob : ℚ) : ProbabilityTier :=
  if 0.7 ≤ prob then .high
  else if 0.4 ≤ prob then .moderate
  else .possible

/-- Ordering used by `classify`: Python `candidates.sort(key=lambda c:
c.base_probability, reverse=True)` is a stable descending sort, realised
here by a stable insertion sort with this relation. -/
def byDescendingProb (a b : FindingCandidate) : Prop :=
  b.base_probability ≤ a.base_probability

instance : DecidableRel byDescendingProb :=
  fun a b => inferInstanceAs (Decidable (b.base_probability ≤ a.base_probability))

instance : IsTotal FindingCandidate byDescendingProb :=
  ⟨fun a b => le_total b.base_probability a.base_probability⟩

instance : IsTrans FindingCandidate byDescendingProb :=
  ⟨fun _ _ _ h₁ h₂ => le_trans h₂ h₁⟩

/-- Conversion of a kept `FindingCandidate` into a `DifferentialDiagnosis`
(the body of the emission loop in `classify`). -/
def toDifferential (c : FindingCandidate) : DifferentialDiagnosis :=
  ⟨c.display_name, c.icd10, round3 c.base_probability,
    to_probability_tier c.base_probability,
    c.criteria.map (fun cr => ⟨cr.name, cr.met⟩),
    c.absent, c.tests⟩

/-- The checker candidates in source order (`classify` before sorting). -/
def rawCandidates (m : Measurements) : List FindingCandidate :=
  ALL_CHECKERS.map (fun checker => checker m)

/-- The candidates after the in-place descending sort in `classify`. -/
def sortedCandidates (m : Measurements) : List FindingCandidate :=
  List.insertionSort byDescendingProb (rawCandidates m)

/-- The candidates surviving the `base_probability < 0.05 → continue` filter. -/
def keptCandidates (m : Measurements) : List FindingCandidate :=
  (sortedCandidates m).filter (fun c => decide (¬ c.base_probability < 0.05))

/-- `interpreter/classifier.py` `_classify_rhythm`. -/
def classify_rhythm (m : Measurements) (candidates : List FindingCandidate) : String :=
  let rhythm_names : List String :=
    ["normal_sinus", "sinus_tachycardia", "sinus_bradycardia",
     "atrial_fibrillation", "atrial_flutter", "svt"]
  match candidates.find? (fun c =>
      rhythm_names.contains c.name && decide (0.5 ≤ c.base_probability)) with
  | some c => c.display_name
  | none =>
    if m.rate.value = 0 then "Rhythm indeterminate — rate could not be measured"
    else if m.rhythm_description = "" then "Rhythm not classified"
    else m.rhythm_description

/-- `interpreter/classifier.py` `_classify_conduction`. -/
def classify_conduction (candidates : List FindingCandidate) : List String :=
  let conduction_names : List String :=
    ["rbbb", "lbbb", "lafb", "lpfb",
     "first_degree_av_block", "second_degree_mobitz_i",
     "second_degree_mobitz_ii", "third_degree_av_block", "wpw"]
  ((candidates.filter (fun c =>
      conduction_names.contains c.name && decide (0.4 ≤ c.base_probability))).map
    (fun c => c.display_name))

/-- The primary finding selected in `classify`: the top differential name,
or the fallback string when no differential survives the filter. -/
def classify_primary (m : Measurements) : String :=
  match (keptCandidates m).map toDifferential with
  | [] => "Indeterminate — insufficient data"
  | d :: _ => d.name

/-- `interpreter/classifier.py` `classify`. -/
def classify (m : Measurements) : ClassifierOutput :=
  ⟨classify_primary m, (keptCandidates m).map toDifferential,
    classify_rhythm m (sortedCandidates m),
    classify_conduction (sortedCandidates m)⟩

/-! Support lemmas for the classifier invariants: `round3` is monotone and
does not move a value across the tier boundaries 0.4 / 0.7 or the drop
threshold 0.05, because no base probability the checkers can produce lies
in the half-thousandth bands below those boundaries. -/

theorem round3_mono {a b : ℚ} (h : a ≤ b) : round3 a ≤ round3 b := by
  unfold round3
  have h1 : round (1000 * a) ≤ round (1000 * b) := by
    rw [round_eq, round_eq]
    exact Int.floor_mono (by linarith)
  have h2 : ((round (1000 * a) : ℤ) : ℚ) ≤ ((round (1000 * b) : ℤ) : ℚ) :=
    Int.cast_le.mpr h1
  linarith

theorem round3_ge_iff (z : ℤ) (q : ℚ) :
    (z : ℚ) / 1000 ≤ round3 q ↔ (z : ℚ) / 1000 - 1 / 2000 ≤ q := by
  unfold round3
  rw [div_le_div_iff_of_pos_right (by norm_num : (0 : ℚ) < 1000), round_eq,
    Int.cast_le, Int.le_floor]
  constructor <;> intro h <;> linarith

/-- Base probabilities that stay on the correct side of every cut point
after rounding to three decimals. -/
def OkBase (q : ℚ) : Prop :=
  ¬(0.0495 ≤ q ∧ q < 0.05) ∧ ¬(0.3995 ≤ q ∧ q < 0.4) ∧ ¬(0.6995 ≤ q ∧ q < 0.7)

instance : DecidablePred OkBase := fun q =>
  inferInstanceAs (Decidable (¬(0.0495 ≤ q ∧ q < 0.05) ∧
    ¬(0.3995 ≤ q ∧ q < 0.4) ∧ ¬(0.6995 ≤ q ∧ q < 0.7)))

theorem okBase_round3_ge_07 {q : ℚ} (h : OkBase q) :
    0.7 ≤ round3 q ↔ 0.7 ≤ q := by
  have h7 := round3_ge_iff 700 q
  have e1 : ((700 : ℤ) : ℚ) / 1000 = 0.7 := by norm_num
  have e2 : ((700 : ℤ) : ℚ) / 1000 - 1 / 2000 = 0.6995 := by norm_num
  rw [e2, e1] at h7
  rw [h7]
  obtain ⟨-, -, h3⟩ := h
  constructor <;> intro hq
  · by_contra hc
    exact h3 ⟨hq, by linarith⟩
  · linarith

theorem okBase_round3_ge_04 {q : ℚ} (h : OkBase q) :
    0.4 ≤ round3 q ↔ 0.4 ≤ q := by
  have h4 := round3_ge_iff 400 q
  have e1 : ((400 : ℤ) : ℚ) / 1000 = 0.4 := by norm_num
  have e2 : ((400 : ℤ) : ℚ) / 1000 - 1 / 2000 = 0.3995 := by norm_num
  rw [e2, e1] at h4
  rw [h4]
  obtain ⟨-, h2, -⟩ := h
  constructor <;> intro hq
  · by_contra hc
    exact h2 ⟨hq, by linarith⟩
  · linarith

theorem okBase_round3_ge_005 {q : ℚ} (h : OkBase q) :
    0.05 ≤ round3 q ↔ 0.05 ≤ q := by
  have h5 := round3_ge_iff 50 q
  have e1 : ((50 : ℤ) : ℚ) / 1000 = 0.05 := by norm_num
  have e2 : ((50 : ℤ) : ℚ) / 1000 - 1 / 2000 = 0.0495 := by norm_num
  rw [e2, e1] at h5
  rw [h5]
  obtain ⟨h1, -, -⟩ := h
  constructor <;> intro hq
  · by_contra hc
    exact h1 ⟨hq, by linarith⟩
  · linarith

/-- Every gate factor occurring in a checker. -/
def gateList : List ℚ := [0, 0.1, 0.2, 0.3, 0.4, 0.5, 0.6, 0.7, 0.8, 0.9, 1]

set_option maxRecDepth 400000 in
unseal Rat.mul Rat.inv Rat.add Rat.sub Rat.ofScientific in
theorem base_ok_table :
    ∀ n ∈ ([2, 3, 4, 6] : List ℕ), ∀ k ∈ List.range (n + 1), ∀ g ∈ gateList,
      OkBase ((k : ℚ) / (n : ℚ) * g) := by decide

theorem okBase_div_mul (cs : List CriteriaResult) (g : ℚ) (n : ℕ)
    (hn : cs.length = n) (hmem : n ∈ ([2, 3, 4, 6] : List ℕ)) (hg : g ∈ gateList) :
    OkBase ((metCount cs : ℚ) / (cs.length : ℚ) * g) := by
  rw [hn]
  exact base_ok_table n hmem (metCount cs)
    (List.mem_range.mpr (Nat.lt_succ_of_le (hn ▸ List.countP_le_length _))) g hg

theorem okBase_div (cs : List CriteriaResult) (n : ℕ)
    (hn : cs.length = n) (hmem : n ∈ ([2, 3, 4, 6] : List ℕ)) :
    OkBase ((metCount cs : ℚ) / (cs.length : ℚ)) := by
  have h := okBase_div_mul cs 1 n hn hmem (by norm_num [gateList])
  rwa [mul_one] at h

theorem gate_if_mem (c : Prop) [Decidable c] (g₁ g₂ : ℚ)
    (h₁ : g₁ ∈ gateList) (h₂ : g₂ ∈ gateList) :
    (if c then g₁ else g₂) ∈ gateList := by
  split <;> assumption

theorem okBase_check_normal_sinus (m : Measurements) :
    OkBase (check_normal_sinus m).base_probability :=
  okBase_div _ 6 rfl (by norm_num)

theorem okBase_check_sinus_tachycardia (m : Measurements) :
    OkBase (check_sinus_tachycardia m).base_probability :=
  okBase_div _ 4 rfl (by norm_num)

theorem okBase_check_sinus_bradycardia (m : Measurements) :
    OkBase (check_sinus_bradycardia m).base_probability :=
  okBase_div _ 3 rfl (by norm_num)

theorem okBase_check_atrial_fibrillation (m : Measurements) :
    OkBase (check_atrial_fibrillation m).base_probability :=
  okBase_div _ 3 rfl (by norm_num)

theorem okBase_check_atrial_flutter (m : Measurements) :
    OkBase (check_atrial_flutter m).base_probability :=
  okBase_div_mul _ _ 3 rfl (by norm_num) (by norm_num [gateList])

theorem okBase_check_svt (m : Measurements) :
    OkBase (check_svt m).base_probability :=
  okBase_div _ 4 rfl (by norm_num)

theorem okBase_check_rbbb (m : Measurements) :
    OkBase (check_rbbb m).base_probability :=
  okBase_div_mul _ _ 3 rfl (by norm_num) (by norm_num [gateList])

theorem okBase_check_lbbb (m : Measurements) :
    OkBase (check_lbbb m).base_probability :=
  okBase_div_mul _ _ 4 rfl (by norm_num)
    (gate_if_mem _ _ _ (by norm_num [gateList]) (by norm_num [gateList]))

theorem okBase_check_lafb (m : Measurements) :
    OkBase (check_lafb m).base_probability :=
  okBase_div_mul _ _ 4 rfl (by norm_num)
    (gate_if_mem _ _ _ (by norm_num [gateList]) (by norm_num [gateList]))

theorem okBase_check_lpfb (m : Measurements) :
    OkBase (check_lpfb m).base_probability :=
  okBase_div_mul _ _ 3 rfl (by norm_num)
    (gate_if_mem _ _ _ (by norm_num [gateList]) (by norm_num [gateList]))

theorem okBase_check_first_degree_av_block (m : Measurements) :
    OkBase (check_first_degree_av_block m).base_probability :=
  okBase_div_mul _ _ 3 rfl (by norm_num)
    (gate_if_mem _ _ _ (by norm_num [gateList]) (by norm_num [gateList]))

theorem okBase_check_second_degree_mobitz_i (m : Measurements) :
    OkBase (check_second_degree_mobitz_i m).base_probability :=
  okBase_div_mul _ _ 3 rfl (by norm_num) (by norm_num [gateList])

theorem okBase_check_second_degree_mobitz_ii (m : Measurements) :
    OkBase (check_second_degree_mobitz_ii m).base_probability :=
  okBase_div_mul _ _ 4 rfl (by norm_num) (by norm_num [gateList])

theorem okBase_check_third_degree_av_block (m : Measurements) :
    OkBase (check_third_degree_av_block m).base_probability :=
  okBase_div_mul _ _ 4 rfl (by norm_num)
    (gate_if_mem _ _ _ (by norm_num [gateList]) (by norm_num [gateList]))

theorem okBase_check_wpw (m : Measurements) :
    OkBase (check_wpw m).base_probability :=
  okBase_div_mul _ _ 3 rfl (by norm_num)
    (gate_if_mem _ _ _ (by norm_num [gateList]) (by norm_num [gateList]))

theorem okBase_check_lvh (m : Measurements) :
    OkBase (check_lvh m).base_probability :=
  okBase_div_mul _ _ 3 rfl (by norm_num)
    (gate_if_mem _ _ _ (by norm_num [gateList]) (by norm_num [gateList]))

theorem okBase_check_rvh (m : Measurements) :
    OkBase (check_rvh m).base_probability :=
  okBase_div _ 3 rfl (by norm_num)

theorem okBase_check_inferior_stemi (m : Measurements) :
    OkBase (check_inferior_stemi m).base_probability :=
  okBase_div_mul _ _ 3 rfl (by norm_num)
    (gate_if_mem _ _ _ (by norm_num [gateList]) (by norm_num [gateList]))

theorem okBase_check_anterior_stemi (m : Measurements) :
    OkBase (check_anterior_stemi m).base_probability :=
  okBase_div_mul _ _ 2 rfl (by norm_num)
    (gate_if_mem _ _ _ (by norm_num [gateList]) (by norm_num [gateList]))

theorem okBase_check_lateral_stemi (m : Measurements) :
    OkBase (check_lateral_stemi m).base_probability :=
  okBase_div_mul _ _ 2 rfl (by norm_num)
    (gate_if_mem _ _ _ (by norm_num [gateList]) (by norm_num [gateList]))

theorem okBase_check_posterior_stemi (m : Measurements) :
    OkBase (check_posterior_stemi m).base_probability :=
  okBase_div_mul _ _ 3 rfl (by norm_num)
    (gate_if_mem _ _ _ (by norm_num [gateList]) (by norm_num [gateList]))

theorem okBase_check_nstemi (m : Measurements) :
    OkBase (check_nstemi m).base_probability :=
  okBase_div_mul _ _ 3 rfl (by norm_num) (by norm_num [gateList])

theorem okBase_check_early_repolarization (m : Measurements) :
    OkBase (check_early_repolarization m).base_probability :=
  okBase_div_mul _ _ 3 rfl (by norm_num) (by norm_num [gateList])

theorem okBase_check_pericarditis (m : Measurements) :
    OkBase (check_pericarditis m).base_probability :=
  okBase_div_mul _ _ 3 rfl (by norm_num)
    (gate_if_mem _ _ _ (by norm_num [gateList]) (by norm_num [gateList]))

theorem okBase_check_digitalis_effect (m : Measurements) :
    OkBase (check_digitalis_effect m).base_probability :=
  okBase_div_mul _ _ 3 rfl (by norm_num) (by norm_num [gateList])

theorem okBase_check_hypokalemia (m : Measurements) :
    OkBase (check_hypokalemia m).base_probability :=
  okBase_div_mul _ _ 4 rfl (by norm_num) (by norm_num [gateList])

theorem okBase_check_hyperkalemia (m : Measurements) :
    OkBase (check_hyperkalemia m).base_probability :=
  okBase_div_mul _ _ 4 rfl (by norm_num) (by norm_num [gateList])

/-- Every raw checker candidate has an `OkBase` base probability. -/
theorem okBase_raw {m : Measurements} {c : FindingCandidate}
    (hc : c ∈ rawCandidates m) : OkBase c.base_probability := by
  simp only [rawCandidates, List.mem_map] at hc
  obtain ⟨f, hf, rfl⟩ := hc
  simp only [ALL_CHECKERS, List.mem_cons, List.not_mem_nil, or_false] at hf
  rcases hf with rfl | rfl | rfl | rfl | rfl | rfl | rfl | rfl | rfl | rfl | rfl |
    rfl | rfl | rfl | rfl | rfl | rfl | rfl | rfl | rfl | rfl | rfl | rfl | rfl |
    rfl | rfl | rfl
  exacts [okBase_check_normal_sinus m, okBase_check_sinus_tachycardia m,
    okBase_check_sinus_bradycardia m, okBase_check_atrial_fibrillation m,
    okBase_check_atrial_flutter m, okBase_check_svt m, okBase_check_rbbb m,
    okBase_check_lbbb m, okBase_check_lafb m, okBase_check_lpfb m,
    okBase_check_first_degree_av_block m, okBase_check_second_degree_mobitz_i m,
    okBase_check_second_degree_mobitz_ii m, okBase_check_third_degree_av_block m,
    okBase_check_wpw m, okBase_check_lvh m, okBase_check_rvh m,
    okBase_check_inferior_stemi m, okBase_check_anterior_stemi m,
    okBase_check_lateral_stemi m, okBase_check_posterior_stemi m,
    okBase_check_nstemi m, okBase_check_early_repolarization m,
    okBase_check_pericarditis m, okBase_check_digitalis_effect m,
    okBase_check_hypokalemia m, okBase_check_hyperkalemia m]

theorem keptCandidates_def (m : Measurements) : keptCandidates m =
    List.filter (fun c => decide (¬ c.base_probability < 0.05)) (sortedCandidates m) :=
  rfl

theorem sortedCandidates_def (m : Measurements) :
    sortedCandidates m = List.insertionSort byDescendingProb (rawCandidates m) :=
  rfl

theorem mem_raw_of_mem_kept {m : Measurements} {c : FindingCandidate}
    (hc : c ∈ keptCandidates m) : c ∈ rawCandidates m := by
  rw [keptCandidates_def] at hc
  have h1 := List.mem_of_mem_filter hc
  rw [sortedCandidates_def] at h1
  exact (List.perm_insertionSort byDescendingProb (rawCandidates m)).mem_iff.mp h1

theorem okBase_kept {m : Measurements} {c : FindingCandidate}
    (hc : c ∈ keptCandidates m) : OkBase c.base_probability :=
  okBase_raw (mem_raw_of_mem_kept hc)

theorem kept_base_ge {m : Measurements} {c : FindingCandidate}
    (hc : c ∈ keptCandidates m) : 0.05 ≤ c.base_probability := by
  rw [keptCandidates_def] at hc
  have h := (List.mem_filter.mp hc).2
  rw [decide_eq_true_eq] at h
  exact not_lt.mp h

theorem sorted_keptCandidates (m : Measurements) :
    List.Pairwise byDescendingProb (keptCandidates m) := by
  rw [keptCandidates_def, sortedCandidates_def]
  exact (List.sorted_insertionSort byDescendingProb (rawCandidates m)).filter _

theorem classify_differentials (m : Measurements) :
    (classify m).differentials = (keptCandidates m).map toDifferential := by
  simp only [classify]

/-- C4: for every `Measurements` input, `classify` returns its differential
list in non-increasing probability order (every pair of adjacent entries
`i`, `j` satisfies `prob[i] ≥ prob[j]`); the list is exactly the image of
the kept candidates, and every kept candidate has base probability at
least 0.05 (the `p < 0.05` candidates are dropped). -/
theorem C4_differentials_sorted_min_base (m : Measurements) :
    List.Chain' (fun a b => b.probability ≤ a.probability) (classify m).differentials ∧
    (classify m).differentials = (keptCandidates m).map toDifferential ∧
    ∀ c ∈ keptCandidates m, 0.05 ≤ c.base_probability := by
  refine ⟨?_, classify_differentials m, fun c hc => kept_base_ge hc⟩
  have hp : List.Pairwise byDescendingProb (keptCandidates m) := sorted_keptCandidates m
  simp only [classify_differentials]
  generalize keptCandidates m = K at hp ⊢
  have hmap : List.Pairwise
      (fun d₁ d₂ : DifferentialDiagnosis => d₂.probability ≤ d₁.probability)
      (K.map toDifferential) := by
    rw [List.pairwise_map]
    exact hp.imp (fun hab => round3_mono hab)
  exact hmap.chain'

/-- C5: for every differential emitted by `classify`, the probability tier
is the pure function of the emitted (rounded) probability that the claim
states: `high` iff `probability ≥ 0.7`, `moderate` iff
`0.4 ≤ probability < 0.7`, `possible` iff `probability < 0.4`. -/
theorem C5_tier_pure_function_of_probability (m : Measurements) :
    ∀ d ∈ (classify m).differentials,
      (d.probability_tier = ProbabilityTier.high ↔ 0.7 ≤ d.probability) ∧
      (d.probability_tier = ProbabilityTier.moderate ↔
        0.4 ≤ d.probability ∧ d.probability < 0.7) ∧
      (d.probability_tier = ProbabilityTier.possible ↔ d.probability < 0.4) := by
  intro d hd
  rw [classify_differentials, List.mem_map] at hd
  obtain ⟨c, hck, rfl⟩ := hd
  have hok := okBase_kept hck
  have h7 := okBase_round3_ge_07 hok
  have h4 := okBase_round3_ge_04 hok
  have hTier : (toDifferential c).probability_tier =
      to_probability_tier c.base_probability := by simp only [toDifferential]
  have hProb : (toDifferential c).probability = round3 c.base_probability := by
    simp only [toDifferential]
  rw [hTier, hProb]
  unfold to_probability_tier
  split_ifs with hc7 hc4
  · have hp7 : 0.7 ≤ round3 c.base_probability := h7.mpr hc7
    refine ⟨by simp [hp7], ?_, ?_⟩
    · have hn : ¬ round3 c.base_probability < 0.7 := not_lt.mpr hp7
      simp [hn]
    · have hn : ¬ round3 c.base_probability < 0.4 := not_lt.mpr (by linarith)
      simp [hn]
  · have hp4 : 0.4 ≤ round3 c.base_probability := h4.mpr hc4
    have hp7 : round3 c.base_probability < 0.7 := by
      by_contra hcon
      exact hc7 (h7.mp (not_lt.mp hcon))
    refine ⟨by simp [not_le.mpr hp7], by simp [hp4, hp7], ?_⟩
    have hn : ¬ round3 c.base_probability < 0.4 := not_lt.mpr hp4
    simp [hn]
  · have hp4 : round3 c.base_probability < 0.4 := by
      by_contra hcon
      exact hc4 (h4.mp (not_lt.mp hcon))
    have hp7 : round3 c.base_probability < 0.7 := by linarith
    exact ⟨by simp [not_le.mpr hp7], by simp [not_le.mpr hp4], by simp [hp4]⟩

/-- A concrete textbook-normal `Measurements` record: rate 75 bpm, regular,
P waves in lead II, PR 160 ms, QRS 90 ms, QT 400 ms, axis 30°, no ST or
T-wave abnormalities. -/
def normalSinusFixture : Measurements :=
  ⟨⟨75, "bpm", "r_peak_detection", 0.9⟩, true, "Regular",
   [⟨"II", true, none, PWaveMorphology.normal, none⟩],
   some ⟨160, "ms", "pr_onset", 0.8⟩,
   ⟨90, "ms", "qrs_onset_offset", 0.8⟩, ⟨400, "ms", "tangent", 0.7⟩,
   ⟨410, "ms", "bazett", 0.7⟩, ⟨405, "ms", "fridericia", 0.7⟩,
   ⟨30, "degrees", "net_qrs", 0.8⟩, "normal", none,
   false, none, false, none, [], []⟩

set_option maxRecDepth 100000 in
unseal Rat.mul Rat.inv Rat.add Rat.sub Rat.ofScientific in
theorem C4_differentials_sorted_min_base_witness :
    check_normal_sinus normalSinusFixture ∈ keptCandidates normalSinusFixture ∧
    0.05 ≤ (check_normal_sinus normalSinusFixture).base_probability :=
  ⟨by decide, (C4_differentials_sorted_min_base normalSinusFixture).2.2 _ (by decide)⟩

set_option maxRecDepth 100000 in
unseal Rat.mul Rat.inv Rat.add Rat.sub Rat.ofScientific in
theorem C5_tier_pure_function_of_probability_witness :
    toDifferential (check_normal_sinus normalSinusFixture) ∈
      (classify normalSinusFixture).differentials ∧
    ((toDifferential (check_normal_sinus normalSinusFixture)).probability_tier =
        ProbabilityTier.high ↔
      0.7 ≤ (toDifferential (check_normal_sinus normalSinusFixture)).probability) :=
  ⟨by decide,
    (C5_tier_pure_function_of_probability normalSinusFixture _ (by decide)).1⟩

/-- C6: the inferior-STEMI checker computes base probability
`(met criteria count / 3) × gate` with gate 0.9 exactly when at least two
ST-deviation entries for leads II, III, aVF carry a deviation ≥ 0.1 mV
(and gate 0 otherwise), and the LAFB checker uses gate 0.9 exactly when
the axis is beyond −30° (and 0.1 otherwise). -/
theorem C6_inferior_stemi_and_lafb_gates (m : Measurements) :
    ((check_inferior_stemi m).base_probability =
      (metCount (check_inferior_stemi m).criteria : ℚ) / 3 *
        (if 2 ≤ m.st_deviations.countP (fun st =>
            (["II", "III", "aVF"] : List String).contains st.lead_name &&
            decide ((0.1 : ℚ) ≤ st.deviation_mv)) then 0.9 else 0)) ∧
    ((check_lafb m).base_probability =
      (metCount (check_lafb m).criteria : ℚ) / 4 *
        (if m.axis_degrees.value < -30 then 0.9 else 0.1)) := by
  constructor
  · simp only [check_inferior_stemi, st_elevation_in_leads]
    norm_num [List.length_cons]
  · simp only [check_lafb]
    norm_num [List.length_cons]

/-- `mapper/archetype_library.py` `ActivationStep` (the Python field
`structure` is a Lean keyword and is rendered `structure_name`). -/
structure ActivationStep where
  structure_name : String
  onset_ms : ℚ
  offset_ms : ℚ
  propagation_direction : ℚ × ℚ × ℚ
  label : String
deriving DecidableEq

/-- `mapper/archetype_library.py` `Archetype`. -/
structure Archetype where
  archetype_id : String
  display_name : String
  activation_sequence : List ActivationStep
  conduction_delays : List (String × ℚ)
  mechanical_label : String
  teaching_note : String
  is_explanatory_reconstruction : Bool
  tags : List String
deriving DecidableEq

/-- `mapper/archetype_library.py` `NORMAL_SINUS`. -/
def NORMAL_SINUS : Archetype :=
  ⟨"normal_sinus", "Normal Sinus Rhythm",
   [⟨"sa_node", 0, 5, (0, -1, 0), "SA node fires"⟩,
    ⟨"right_atrium", 5, 80, (0, -1, 0.5), "Right atrial depolarization"⟩,
    ⟨"left_atrium", 30, 100, (-1, -1, 0), "Left atrial depolarization"⟩,
    ⟨"av_node", 80, 200, (0, 0, -1), "AV node delay"⟩,
    ⟨"his_bundle", 200, 220, (0, 0, -1), "His bundle conduction"⟩,
    ⟨"left_bundle", 220, 235, (-1, 0, -1), "Left bundle branch"⟩,
    ⟨"right_bundle", 220, 240, (1, 0, -1), "Right bundle branch"⟩,
    ⟨"interventricular_septum", 240, 270, (1, 0, 0), "Septal activation (left to right)"⟩,
    ⟨"lv_free_wall", 270, 320, (-1, 0, 0), "LV free wall activation"⟩,
    ⟨"rv_free_wall", 270, 310, (1, 0, 0), "RV free wall activation"⟩,
    ⟨"lv_base", 300, 340, (0, 1, 0), "LV base — last to depolarize"⟩],
   [("av_node", 120), ("his_bundle", 20), ("left_bundle", 15), ("right_bundle", 20)],
   "Synchronized biventricular contraction with normal AV delay",
   "Normal activation begins at the SA node and propagates through the conduction system, producing synchronized ventricular contraction.",
   true, ["normal", "baseline"]⟩

/-- `mapper/archetype_library.py` `RBBB_TYPICAL`. -/
def RBBB_TYPICAL : Archetype :=
  ⟨"RBBB_typical", "Right Bundle Branch Block",
   [⟨"sa_node", 0, 5, (0, -1, 0), "SA node fires"⟩,
    ⟨"right_atrium", 5, 80, (0, -1, 0.5), "Right atrial depolarization"⟩,
    ⟨"left_atrium", 30, 100, (-1, -1, 0), "Left atrial depolarization"⟩,
    ⟨"av_node", 80, 200, (0, 0, -1), "AV node delay"⟩,
    ⟨"his_bundle", 200, 220, (0, 0, -1), "His bundle conduction"⟩,
    ⟨"left_bundle", 220, 235, (-1, 0, -1), "Left bundle — intact"⟩,
    ⟨"interventricular_septum", 240, 270, (1, 0, 0), "Normal septal activation (left to right)"⟩,
    ⟨"lv_free_wall", 270, 320, (-1, 0, 0), "Normal LV activation"⟩,
    ⟨"rv_free_wall", 320, 400, (1, 0, 0), "Delayed RV activation via cell-to-cell conduction"⟩],
   [("av_node", 120), ("his_bundle", 20), ("left_bundle", 15), ("right_bundle", -1),
    ("rv_myocardial_spread", 80)],
   "LV contracts normally; RV contraction is delayed, producing dyssynchronous activation visible as RSR' in V1",
   "In RBBB, the right ventricle is activated late via slow myocardial spread from the left side, producing the characteristic RSR' pattern in V1.",
   true, ["conduction", "bundle_branch_block"]⟩

/-- `mapper/archetype_library.py` `LBBB_TYPICAL`. -/
def LBBB_TYPICAL : Archetype :=
  ⟨"LBBB_typical", "Left Bundle Branch Block",
   [⟨"sa_node", 0, 5, (0, -1, 0), "SA node fires"⟩,
    ⟨"right_atrium", 5, 80, (0, -1, 0.5), "Atrial depolarization"⟩,
    ⟨"left_atrium", 30, 100, (-1, -1, 0), "Atrial depolarization"⟩,
    ⟨"av_node", 80, 200, (0, 0, -1), "AV node delay"⟩,
    ⟨"his_bundle", 200, 220, (0, 0, -1), "His bundle conduction"⟩,
    ⟨"right_bundle", 220, 240, (1, 0, -1), "Right bundle — intact"⟩,
    ⟨"interventricular_septum", 240, 280, (-1, 0, 0), "Reversed septal activation (right to left)"⟩,
    ⟨"rv_free_wall", 250, 290, (1, 0, 0), "Normal RV activation"⟩,
    ⟨"lv_free_wall", 300, 400, (-1, 0, 0), "Delayed LV activation via cell-to-cell conduction"⟩,
    ⟨"lv_base", 380, 440, (0, 1, 0), "Very late LV base activation"⟩],
   [("av_node", 120), ("his_bundle", 20), ("left_bundle", -1), ("right_bundle", 20),
    ("lv_myocardial_spread", 100)],
   "RV contracts first; LV activation is severely delayed, producing mechanical dyssynchrony that may benefit from CRT",
   "In LBBB, the LV septum is activated right-to-left (reversed) and the LV free wall is activated late via slow myocardial spread.",
   true, ["conduction", "bundle_branch_block"]⟩

/-- `mapper/archetype_library.py` `LAFB`. -/
def LAFB : Archetype :=
  ⟨"LAFB", "Left Anterior Fascicular Block",
   [⟨"sa_node", 0, 5, (0, -1, 0), "SA node fires"⟩,
    ⟨"right_atrium", 5, 80, (0, -1, 0.5), "Atrial depolarization"⟩,
    ⟨"left_atrium", 30, 100, (-1, -1, 0), "Atrial depolarization"⟩,
    ⟨"av_node", 80, 200, (0, 0, -1), "AV node delay"⟩,
    ⟨"his_bundle", 200, 220, (0, 0, -1), "His bundle conduction"⟩,
    ⟨"right_bundle", 220, 240, (1, 0, -1), "Right bundle — intact"⟩,
    ⟨"left_posterior_fascicle", 220, 250, (-1, 0, -1), "Left posterior fascicle — intact, activates first"⟩,
    ⟨"lv_free_wall", 250, 290, (-1, 1, 0), "Inferior-to-superior LV activation"⟩,
    ⟨"lv_base", 280, 320, (0, 1, 0), "Superior LV wall activated last (produces left axis)"⟩],
   [("av_node", 120), ("his_bundle", 20), ("left_anterior_fascicle", -1),
    ("left_posterior_fascicle", 15), ("right_bundle", 20)],
   "Activation proceeds inferior-to-superior through the LV, shifting the axis leftward",
   "In LAFB, the anterolateral LV is activated last via the posterior fascicle, producing marked left axis deviation.",
   true, ["conduction", "fascicular_block"]⟩

/-- `mapper/archetype_library.py` `INFERIOR_STEMI_EXPLANATORY`. -/
def INFERIOR_STEMI_EXPLANATORY : Archetype :=
  ⟨"inferior_STEMI_explanatory", "Inferior STEMI — Explanatory Reconstruction",
   [⟨"sa_node", 0, 5, (0, -1, 0), "SA node fires"⟩,
    ⟨"right_atrium", 5, 80, (0, -1, 0.5), "Atrial depolarization"⟩,
    ⟨"left_atrium", 30, 100, (-1, -1, 0), "Atrial depolarization"⟩,
    ⟨"av_node", 80, 200, (0, 0, -1), "AV node delay"⟩,
    ⟨"his_bundle", 200, 220, (0, 0, -1), "His bundle conduction"⟩,
    ⟨"interventricular_septum", 240, 270, (1, 0, 0), "Septal activation"⟩,
    ⟨"lv_free_wall", 270, 320, (-1, 0, 0), "LV activation"⟩,
    ⟨"lv_apex", 270, 340, (0, -1, 0), "Inferior wall — zone of injury with ST current"⟩],
   [("av_node", 120), ("his_bundle", 20), ("left_bundle", 15), ("right_bundle", 20)],
   "Inferior wall injury current visible as ST elevation in II, III, aVF; mechanical hypokinesis of inferior segments",
   "Inferior STEMI typically results from right coronary artery occlusion, producing injury current that points toward the inferior leads.",
   true, ["ischemia", "stemi", "inferior"]⟩

/-- `mapper/archetype_library.py` `ANTERIOR_STEMI_EXPLANATORY`. -/
def ANTERIOR_STEMI_EXPLANATORY : Archetype :=
  ⟨"anterior_STEMI_explanatory", "Anterior STEMI — Explanatory Reconstruction",
   [⟨"sa_node", 0, 5, (0, -1, 0), "SA node fires"⟩,
    ⟨"right_atrium", 5, 80, (0, -1, 0.5), "Atrial depolarization"⟩,
    ⟨"left_atrium", 30, 100, (-1, -1, 0), "Atrial depolarization"⟩,
    ⟨"av_node", 80, 200, (0, 0, -1), "AV node delay"⟩,
    ⟨"his_bundle", 200, 220, (0, 0, -1), "His bundle conduction"⟩,
    ⟨"interventricular_septum", 240, 280, (1, 0, 0), "Septal activation — zone of injury"⟩,
    ⟨"lv_free_wall", 270, 330, (-1, 0, 0), "Anterior wall — extensive injury current"⟩],
   [("av_node", 120), ("his_bundle", 20), ("left_bundle", 15), ("right_bundle", 20)],
   "Anterior and septal wall injury current with ST elevation in V1-V4; anterior wall hypokinesis",
   "Anterior STEMI results from LAD occlusion, affecting the septum and anterior wall — often the largest territory at risk.",
   true, ["ischemia", "stemi", "anterior"]⟩

/-- `mapper/archetype_library.py` `AFIB_TYPICAL`. -/
def AFIB_TYPICAL : Archetype :=
  ⟨"afib_typical", "Atrial Fibrillation",
   [⟨"right_atrium", 0, 600, (0, 0, 0), "Chaotic multifocal atrial activation"⟩,
    ⟨"left_atrium", 0, 600, (0, 0, 0), "Fibrillatory atrial activity"⟩,
    ⟨"av_node", 80, 200, (0, 0, -1), "Irregular AV conduction — rate depends on AV node properties"⟩,
    ⟨"his_bundle", 200, 220, (0, 0, -1), "His bundle"⟩,
    ⟨"left_bundle", 220, 235, (-1, 0, -1), "Left bundle"⟩,
    ⟨"right_bundle", 220, 240, (1, 0, -1), "Right bundle"⟩,
    ⟨"interventricular_septum", 240, 270, (1, 0, 0), "Septal activation"⟩,
    ⟨"lv_free_wall", 270, 320, (-1, 0, 0), "LV activation"⟩,
    ⟨"rv_free_wall", 270, 310, (1, 0, 0), "RV activation"⟩],
   [("av_node", 120), ("his_bundle", 20), ("left_bundle", 15), ("right_bundle", 20)],
   "No organized atrial contraction; irregular ventricular response; loss of atrial kick reduces cardiac output by ~15-25%",
   "In atrial fibrillation, the atria depolarize chaotically with no organized P waves; the AV node filters irregularly, producing an irregularly irregular ventricular rhythm.",
   true, ["arrhythmia", "atrial"]⟩

/-- `mapper/archetype_library.py` `THIRD_DEGREE_BLOCK`. -/
def THIRD_DEGREE_BLOCK : Archetype :=
  ⟨"third_degree_block", "Third Degree (Complete) AV Block",
   [⟨"sa_node", 0, 5, (0, -1, 0), "SA node fires normally"⟩,
    ⟨"right_atrium", 5, 80, (0, -1, 0.5), "Normal atrial depolarization"⟩,
    ⟨"left_atrium", 30, 100, (-1, -1, 0), "Normal atrial depolarization"⟩,
    ⟨"his_bundle", 600, 620, (0, 0, -1), "Escape pacemaker (junctional or ventricular)"⟩,
    ⟨"left_bundle", 620, 640, (-1, 0, -1), "Escape conduction"⟩,
    ⟨"right_bundle", 620, 645, (1, 0, -1), "Escape conduction"⟩,
    ⟨"interventricular_septum", 640, 680, (1, 0, 0), "Escape activation"⟩,
    ⟨"lv_free_wall", 680, 740, (-1, 0, 0), "Escape activation"⟩,
    ⟨"rv_free_wall", 680, 730, (1, 0, 0), "Escape activation"⟩],
   [("av_node", -1), ("escape_interval", 600)],
   "Atria and ventricles beat independently; ventricular rate 30-50 bpm from escape pacemaker; hemodynamically compromised",
   "In complete heart block, no atrial impulses reach the ventricles; the ventricles are driven by an escape rhythm below the block.",
   true, ["conduction", "heart_block", "emergency"]⟩

/-- `mapper/archetype_library.py` `WPW_TYPICAL`. -/
def WPW_TYPICAL : Archetype :=
  ⟨"WPW_typical", "Wolff-Parkinson-White Pattern",
   [⟨"sa_node", 0, 5, (0, -1, 0), "SA node fires"⟩,
    ⟨"right_atrium", 5, 80, (0, -1, 0.5), "Atrial depolarization"⟩,
    ⟨"left_atrium", 30, 100, (-1, -1, 0), "Atrial depolarization"⟩,
    ⟨"lv_free_wall", 80, 140, (-1, 0, 0), "Early ventricular activation via accessory pathway (delta wave)"⟩,
    ⟨"av_node", 80, 200, (0, 0, -1), "Normal AV conduction (slower)"⟩,
    ⟨"his_bundle", 200, 220, (0, 0, -1), "His bundle"⟩,
    ⟨"interventricular_septum", 220, 260, (1, 0, 0), "Normal pathway catches up — fusion complex"⟩,
    ⟨"rv_free_wall", 260, 300, (1, 0, 0), "RV activation"⟩],
   [("av_node", 120), ("accessory_pathway", 0), ("his_bundle", 20)],
   "Pre-excitation of ventricular myocardium via accessory pathway produces delta wave and short PR interval",
   "In WPW, an accessory pathway bypasses the AV node, causing early ventricular activation (delta wave) with a short PR interval.",
   true, ["conduction", "pre_excitation", "accessory_pathway"]⟩

/-- `mapper/archetype_library.py` `LVH_TYPICAL`. -/
def LVH_TYPICAL : Archetype :=
  ⟨"LVH_typical", "Left Ventricular Hypertrophy",
   [⟨"sa_node", 0, 5, (0, -1, 0), "SA node fires"⟩,
    ⟨"right_atrium", 5, 80, (0, -1, 0.5), "Atrial depolarization"⟩,
    ⟨"left_atrium", 30, 110, (-1, -1, 0), "Left atrial depolarization — may be prolonged"⟩,
    ⟨"av_node", 80, 200, (0, 0, -1), "AV node delay"⟩,
    ⟨"his_bundle", 200, 220, (0, 0, -1), "His bundle"⟩,
    ⟨"left_bundle", 220, 235, (-1, 0, -1), "Left bundle"⟩,
    ⟨"right_bundle", 220, 240, (1, 0, -1), "Right bundle"⟩,
    ⟨"interventricular_septum", 240, 270, (1, 0, 0), "Septal activation"⟩,
    ⟨"rv_free_wall", 270, 310, (1, 0, 0), "RV activation"⟩,
    ⟨"lv_free_wall", 270, 350, (-1, 0, 0), "LV activation — prolonged due to increased muscle mass"⟩,
    ⟨"lv_base", 330, 380, (0, 1, 0), "Late LV base — thickened wall takes longer to activate"⟩],
   [("av_node", 120), ("his_bundle", 20), ("left_bundle", 15), ("right_bundle", 20),
    ("lv_wall_prolongation", 30)],
   "Increased LV mass produces higher voltage QRS complexes and may show strain pattern (ST depression, T inversion) in lateral leads",
   "LVH increases the electrical vector magnitude toward the left ventricle, producing tall R waves in lateral leads and deep S waves in right precordial leads.",
   true, ["structural", "hypertrophy"]⟩

/-- `mapper/archetype_library.py` `ARCHETYPE_REGISTRY` (a Python dict with
insertion order, modelled as an association list in the same order). -/
def ARCHETYPE_REGISTRY : List (String × Archetype) :=
  [("normal_sinus", NORMAL_SINUS),
   ("RBBB_typical", RBBB_TYPICAL),
   ("LBBB_typical", LBBB_TYPICAL),
   ("LAFB", LAFB),
   ("inferior_STEMI_explanatory", INFERIOR_STEMI_EXPLANATORY),
   ("anterior_STEMI_explanatory", ANTERIOR_STEMI_EXPLANATORY),
   ("afib_typical", AFIB_TYPICAL),
   ("third_degree_block", THIRD_DEGREE_BLOCK),
   ("WPW_typical", WPW_TYPICAL),
   ("LVH_typical", LVH_TYPICAL)]

/-- `mapper/archetype_library.py` `get_archetype`. -/
def get_archetype (archetype_id : String) : Option Archetype :=
  match ARCHETYPE_REGISTRY.find? (fun p => p.1 == archetype_id) with
  | some p => some p.2
  | none => none

/-- `mapper/archetype_library.py` `find_best_archetype` (the static
`FINDING_TO_ARCHETYPE` table with fallback `"normal_sinus"`). -/
def find_best_archetype (finding_name : String) : String :=
  match ([("normal_sinus", "normal_sinus"),
    ("sinus_tachycardia", "normal_sinus"),
    ("sinus_bradycardia", "normal_sinus"),
    ("atrial_fibrillation", "afib_typical"),
    ("atrial_flutter", "afib_typical"),
    ("svt", "normal_sinus"),
    ("rbbb", "RBBB_typical"),
    ("lbbb", "LBBB_typical"),
    ("lafb", "LAFB"),
    ("lpfb", "normal_sinus"),
    ("first_degree_av_block", "normal_sinus"),
    ("second_degree_mobitz_i", "normal_sinus"),
    ("second_degree_mobitz_ii", "third_degree_block"),
    ("third_degree_av_block", "third_degree_block"),
    ("wpw", "WPW_typical"),
    ("lvh", "LVH_typical"),
    ("rvh", "normal_sinus"),
    ("inferior_stemi", "inferior_STEMI_explanatory"),
    ("anterior_stemi", "anterior_STEMI_explanatory"),
    ("lateral_stemi", "anterior_STEMI_explanatory"),
    ("posterior_stemi", "inferior_STEMI_explanatory"),
    ("nstemi", "normal_sinus"),
    ("early_repolarization", "normal_sinus"),
    ("pericarditis", "normal_sinus"),
    ("digitalis_effect", "normal_sinus"),
    ("hypokalemia", "normal_sinus"),
    ("hyperkalemia", "normal_sinus")] : List (String × String)).find?
      (fun p => p.1 == finding_name) with
  | some p => p.2
  | none => "normal_sinus"

/-- `models/schemas.py` `PropagationVector`. -/
structure PropagationVector where
  x : ℚ
  y : ℚ
  z : ℚ
deriving DecidableEq

/-- `models/schemas.py` `ActivationEvent`. -/
structure ActivationEvent where
  structure_name : String
  onset_ms : ℚ
  offset_ms : ℚ
  propagation_direction_vector : PropagationVector
  confidence : ℚ
deriving DecidableEq

/-- `mapper/parameter_builder.py` `_build_activation_sequence`. -/
def build_activation_sequence (archetype : Archetype) : List ActivationEvent :=
  archetype.activation_sequence.map (fun step =>
    ⟨step.structure_name, step.onset_ms, step.offset_ms,
     ⟨step.propagation_direction.1, step.propagation_direction.2.1,
      step.propagation_direction.2.2⟩, 0.7⟩)

/-- All-pairs form of the ordering facts behind C8, in decidable form. -/
theorem C8_pairwise_onsets :
    ∀ p ∈ ARCHETYPE_REGISTRY,
      List.Pairwise (fun e₁ e₂ : ActivationEvent => e₁.onset_ms ≤ e₂.onset_ms)
        (build_activation_sequence p.2) ∧
      ∀ e ∈ build_activation_sequence p.2, e.onset_ms ≤ e.offset_ms := by
  decide

/-- C8: for every archetype in the registry, the activation events built
from it are sorted by onset (adjacent onsets are non-decreasing), and no
event has `offset_ms < onset_ms`. -/
theorem C8_activation_events_onset_sorted_and_wellformed :
    ∀ p ∈ ARCHETYPE_REGISTRY,
      List.Chain' (fun e₁ e₂ : ActivationEvent => e₁.onset_ms ≤ e₂.onset_ms)
        (build_activation_sequence p.2) ∧
      ∀ e ∈ build_activation_sequence p.2, e.onset_ms ≤ e.offset_ms := by
  intro p hp
  exact ⟨((C8_pairwise_onsets p hp).1).chain', (C8_pairwise_onsets p hp).2⟩

theorem C8_activation_events_onset_sorted_and_wellformed_witness :
    (("normal_sinus", NORMAL_SINUS) ∈ ARCHETYPE_REGISTRY) ∧
    List.Chain' (fun e₁ e₂ : ActivationEvent => e₁.onset_ms ≤ e₂.onset_ms)
      (build_activation_sequence NORMAL_SINUS) :=
  ⟨List.mem_cons_self _ _,
    (C8_activation_events_onset_sorted_and_wellformed _ (List.mem_cons_self _ _)).1⟩

/-- `models/schemas.py` `AcquisitionType`. -/
inductive AcquisitionType where
  | simultaneous
  | stitched
deriving DecidableEq

/-- `models/schemas.py` `LeadDigitizationConfidence`. -/
structure LeadDigitizationConfidence where
  lead_name : String
  confidence : ℚ
  failure_reason : Option String
deriving DecidableEq

/-- `models/schemas.py` `ECGMetadata`. -/
structure ECGMetadata where
  paper_speed : ℚ
  amplitude_scale : ℚ
  lead_count : ℕ
  acquisition_type : AcquisitionType
  digitization_confidence : List LeadDigitizationConfidence
deriving DecidableEq

/-- `models/schemas.py` `Interpretation`. -/
structure Interpretation where
  primary_diagnosis : String
  differentials : List DifferentialDiagnosis
  rhythm : String
  conduction_abnormalities : List String
deriving DecidableEq

/-- `models/schemas.py` `ConductionSystem`. -/
structure ConductionSystem where
  sa_node_rate : Option ℚ
  internodal_tracts_intact : Bool
  av_node_delay_ms : ℚ
  his_bundle_intact : Bool
  lbbb : Bool
  rbbb : Bool
  wpw : Bool
  accessory_pathway_vector : Option PropagationVector
deriving DecidableEq

/-- `models/schemas.py` `InjuryCurrentRegion`. -/
structure InjuryCurrentRegion where
  location : String
  magnitude_mv : ℚ
deriving DecidableEq

/-- `models/schemas.py` `Repolarization` (the two Python dicts are
modelled as association lists in insertion order). -/
structure Repolarization where
  st_deviation_by_lead : List (String × ℚ)
  t_wave_axis : Option ℚ
  repolarization_gradient_map : List (String × ℚ)
  injury_current_regions : List InjuryCurrentRegion
deriving DecidableEq

/-- `models/schemas.py` `AlternateModel`. -/
structure AlternateModel where
  description : String
  discriminating_test : String
deriving DecidableEq

/-- `models/schemas.py` `Uncertainty`. -/
structure Uncertainty where
  underdetermined_parameters : List String
  alternate_models : List AlternateModel
deriving DecidableEq

/-- `models/schemas.py` `DisplayContract`. -/
structure DisplayContract where
  evidence_supported : List String
  modeled_assumption : List String
deriving DecidableEq

/-- `models/schemas.py` `VisualizationParameterJSON`. -/
structure VisualizationParameterJSON where
  session_id : Option String
  ecg_metadata : ECGMetadata
  measurements : Measurements
  interpretation : Interpretation
  activation_sequence : List ActivationEvent
  conduction_system : ConductionSystem
  repolarization : Repolarization
  mechanical_archetype : String
  uncertainty : Uncertainty
  display_contract : DisplayContract
  pipeline_warnings : List String
  pipeline_degraded : Bool
deriving DecidableEq

/-- Case-sensitive substring test, modelling Python `pat in s`. -/
def strContainsB (s pat : String) : Bool :=
  decide (pat.toList <:+: s.toList)

/-- Numeric rendering used inside Python f-strings (float `repr`,
`:.0%`, `:+.2f`).  These renderings are presentation-only — no claim
inspects a string through them — so they are abstracted as an oracle
argument instead of being modelled bit-for-bit; `atan2_deg` likewise
stands for `round(math.degrees(math.atan2(y, x)), 1)`, the one
trigonometric (floating-point) computation in the mapper. -/
structure FloatOracle where
  num : ℚ → String
  percent : ℚ → String
  mv2 : ℚ → String
  atan2_deg : ℚ → ℚ → ℚ

/-- `mapper/parameter_builder.py` `_extract_finding_key`. -/
def extract_finding_key (classifier_output : ClassifierOutput) : String :=
  match ([("Normal sinus rhythm", "normal_sinus"),
    ("Pattern consistent with sinus tachycardia", "sinus_tachycardia"),
    ("Pattern consistent with sinus bradycardia", "sinus_bradycardia"),
    ("Pattern consistent with atrial fibrillation", "atrial_fibrillation"),
    ("Pattern consistent with atrial flutter", "atrial_flutter"),
    ("Pattern consistent with supraventricular tachycardia", "svt"),
    ("Pattern consistent with right bundle branch block", "rbbb"),
    ("Pattern consistent with left bundle branch block", "lbbb"),
    ("Pattern consistent with left anterior fascicular block", "lafb"),
    ("Pattern consistent with left posterior fascicular block", "lpfb"),
    ("Pattern consistent with first degree AV block", "first_degree_av_block"),
    ("Finding suggestive of second degree AV block, Mobitz type I (Wenckebach)",
      "second_degree_mobitz_i"),
    ("Finding suggestive of second degree AV block, Mobitz type II",
      "second_degree_mobitz_ii"),
    ("Pattern consistent with third degree (complete) AV block", "third_degree_av_block"),
    ("Pattern consistent with Wolff-Parkinson-White", "wpw"),
    ("Finding suggestive of left ventricular hypertrophy", "lvh"),
    ("Finding suggestive of right ventricular hypertrophy", "rvh"),
    ("Pattern consistent with acute inferior ST-elevation myocardial injury",
      "inferior_stemi"),
    ("Pattern consistent with acute anterior ST-elevation myocardial injury",
      "anterior_stemi"),
    ("Pattern consistent with acute lateral ST-elevation myocardial injury",
      "lateral_stemi"),
    ("Pattern consistent with acute posterior ST-elevation myocardial injury",
      "posterior_stemi"),
    ("Pattern consistent with non-ST-elevation myocardial injury", "nstemi"),
    ("Pattern consistent with early repolarization", "early_repolarization"),
    ("Pattern consistent with pericarditis", "pericarditis"),
    ("Pattern consistent with digitalis effect", "digitalis_effect"),
    ("Pattern consistent with hypokalemia", "hypokalemia"),
    ("Pattern consistent with hyperkalemia", "hyperkalemia")] :
      List (String × String)).find?
      (fun p => p.1 == classifier_output.primary_finding) with
  | some p => p.2
  | none => "normal_sinus"

/-- `mapper/parameter_builder.py` `_build_conduction_system`. -/
def build_conduction_system (archetype : Archetype)
    (classifier_output : ClassifierOutput) (m : Measurements) : ConductionSystem :=
  let conduction_findings := classifier_output.conduction_abnormalities
  let sa_rate := if 0 < m.rate.value then some m.rate.value else none
  let av_default :=
    match archetype.conduction_delays.find? (fun p => p.1 == "av_node") with
    | some p => p.2
    | none => 120
  let av_delay :=
    match m.pr_interval with
    | some pr => if 0 < pr.value then pr.value else av_default
    | none => av_default
  let lbbb := conduction_findings.any (fun f => strContainsB f.toLower "left bundle branch")
  let rbbb := conduction_findings.any (fun f => strContainsB f.toLower "right bundle branch")
  let wpw := conduction_findings.any (fun f => strContainsB f.toLower "wolff-parkinson-white")
  let accessory := if wpw then some (⟨-1, 0, 0⟩ : PropagationVector) else none
  ⟨sa_rate, true, av_delay, !(lbbb && rbbb), lbbb, rbbb, wpw, accessory⟩

/-- Dict-style insert for the association-list model of a Python dict:
an existing key's value is updated in place, a new key appends. -/
def assocSet (l : List (String × ℚ)) (k : String) (v : ℚ) : List (String × ℚ) :=
  if l.any (fun p => p.1 == k) then l.map (fun p => if p.1 == k then (k, v) else p)
  else l ++ [(k, v)]

/-- Maximum of a non-empty list, modelling Python `max` (0 on `[]`,
which never occurs at call sites because emptiness is guarded). -/
def listMax : List ℚ → ℚ
  | [] => 0
  | x :: xs => xs.foldl max x

/-- `mapper/parameter_builder.py` `_estimate_t_wave_axis`. -/
def estimate_t_wave_axis (fo : FloatOracle) (m : Measurements) : Option ℚ :=
  let t_i := m.t_wave_details.foldl
    (fun acc tw => if tw.lead_name == "I" then tw.amplitude_mv else acc) none
  let t_avf := m.t_wave_details.foldl
    (fun acc tw => if tw.lead_name == "I" then acc
      else if tw.lead_name == "aVF" then tw.amplitude_mv else acc) none
  match t_i, t_avf with
  | some a, some b => some (fo.atan2_deg b a)
  | _, _ => none

/-- `mapper/parameter_builder.py` `_detect_injury_regions`. -/
def detect_injury_regions (m : Measurements) : List InjuryCurrentRegion :=
  let inf_elevations := (m.st_deviations.filter (fun st =>
    (["II", "III", "aVF"] : List String).contains st.lead_name &&
    decide ((0.1 : ℚ) < st.deviation_mv))).map (fun st => st.deviation_mv)
  let ant_elevations := (m.st_deviations.filter (fun st =>
    (["V1", "V2", "V3", "V4"] : List String).contains st.lead_name &&
    decide ((0.1 : ℚ) < st.deviation_mv))).map (fun st => st.deviation_mv)
  let lat_elevations := (m.st_deviations.filter (fun st =>
    (["I", "aVL", "V5", "V6"] : List String).contains st.lead_name &&
    decide ((0.1 : ℚ) < st.deviation_mv))).map (fun st => st.deviation_mv)
  (if 2 ≤ inf_elevations.length then
    [(⟨"inferior", round3 (listMax inf_elevations)⟩ : InjuryCurrentRegion)] else []) ++
  (if 2 ≤ ant_elevations.length then
    [(⟨"anterior", round3 (listMax ant_elevations)⟩ : InjuryCurrentRegion)] else []) ++
  (if 2 ≤ lat_elevations.length then
    [(⟨"lateral", round3 (listMax lat_elevations)⟩ : InjuryCurrentRegion)] else [])

/-- `mapper/parameter_builder.py` `_build_repolarization`. -/
def build_repolarization (fo : FloatOracle) (m : Measurements) : Repolarization :=
  let st_by_lead := m.st_deviations.foldl
    (fun acc st => assocSet acc st.lead_name st.deviation_mv) []
  let gradient_map := m.t_wave_details.foldl
    (fun acc tw =>
      match tw.amplitude_mv with
      | some a => assocSet acc tw.lead_name |a|
      | none => acc) []
  ⟨st_by_lead, estimate_t_wave_axis fo m, gradient_map, detect_injury_regions m⟩

/-- `mapper/parameter_builder.py` `_build_uncertainty`. -/
def build_uncertainty (fo : FloatOracle) (classifier_output : ClassifierOutput)
    (m : Measurements) (_archetype_id : String) : Uncertainty :=
  let underdetermined :=
    (if m.rate.confidence < 0.5 then
      ["Heart rate — low confidence in R peak detection"] else []) ++
    (match m.pr_interval with
     | none => ["PR interval — could not be measured"]
     | some _ => []) ++
    (if m.qrs_duration.confidence < 0.5 then
      ["QRS duration — low confidence in onset/offset detection"] else []) ++
    (if m.qt_interval.confidence < 0.5 then
      ["QT interval — T wave end detection uncertain"] else []) ++
    (if m.axis_degrees.confidence < 0.5 then
      ["Electrical axis — low confidence measurement"] else []) ++
    ["Internal activation sequence — reconstructed from surface ECG; intracardiac mapping would provide direct measurement"]
  let second_alternates :=
    match classifier_output.differentials with
    | _ :: second :: _ =>
      if 0.3 ≤ second.probability then
        [(⟨"Alternate interpretation: " ++ second.name ++ " (probability " ++
            fo.percent second.probability ++ ")",
          match second.recommended_discriminating_tests with
          | t :: _ => t
          | [] => "Clinical correlation required"⟩ : AlternateModel)]
      else []
    | _ => []
  let stemi_found := classifier_output.differentials.any (fun d =>
    decide ((0.3 : ℚ) < d.probability) &&
    (strContainsB d.name "STEMI" || strContainsB d.name "ST-elevation"))
  let early_repol := classifier_output.differentials.any (fun d =>
    decide ((0.2 : ℚ) < d.probability) && strContainsB d.name "early repolarization")
  let pericarditis := classifier_output.differentials.any (fun d =>
    decide ((0.2 : ℚ) < d.probability) && strContainsB d.name "pericarditis")
  let dilemma_alternates :=
    (if stemi_found && early_repol then
      [(⟨"ST elevation may represent either acute injury or benign early repolarization — these cannot be reliably distinguished by ECG alone in all cases",
        "Serial ECGs, troponin levels, and clinical presentation"⟩ : AlternateModel)]
     else []) ++
    (if stemi_found && pericarditis then
      [(⟨"Diffuse ST elevation pattern may represent either pericarditis or multi-territory ischemia",
        "PR depression pattern, spodick sign, troponin trend, echo"⟩ : AlternateModel)]
     else [])
  ⟨underdetermined, second_alternates ++ dilemma_alternates⟩

/-- `mapper/parameter_builder.py` `_build_display_contract`. -/
def build_display_contract (fo : FloatOracle) (m : Measurements)
    (classifier_output : ClassifierOutput) (archetype_id : String) : DisplayContract :=
  let significant_st := m.st_deviations.filter (fun st =>
    decide ((0.05 : ℚ) < |st.deviation_mv|))
  let evidence_supported :=
    (if 0.3 < m.rate.confidence then
      ["Heart rate: " ++ fo.num m.rate.value ++ " bpm (confidence " ++
        fo.percent m.rate.confidence ++ ")"] else []) ++
    (if m.rhythm_description ≠ "" then
      ["Rhythm: " ++ m.rhythm_description] else []) ++
    (match m.pr_interval with
     | some pr => if 0.3 < pr.confidence then
        ["PR interval: " ++ fo.num pr.value ++ " ms"] else []
     | none => []) ++
    (if 0.3 < m.qrs_duration.confidence then
      ["QRS duration: " ++ fo.num m.qrs_duration.value ++ " ms"] else []) ++
    (if 0.3 < m.qt_interval.confidence then
      ["QT: " ++ fo.num m.qt_interval.value ++ " ms, QTc (Bazett): " ++
        fo.num m.qtc_bazett.value ++ " ms"] else []) ++
    (if 0.3 < m.axis_degrees.confidence then
      ["Axis: " ++ fo.num m.axis_degrees.value ++ "° (" ++ m.axis_quadrant ++ ")"]
     else []) ++
    (if significant_st ≠ [] then
      ["ST deviations: " ++ String.intercalate ", "
        ((significant_st.take 6).map (fun st =>
          st.lead_name ++ ": " ++ fo.mv2 st.deviation_mv ++ "mV"))] else []) ++
    (if m.lvh_voltage_criteria then
      ["LVH voltage criteria: " ++
        (match m.lvh_criteria_detail with | some d => d | none => "None")] else []) ++
    (if m.rvh_voltage_criteria then
      ["RVH voltage criteria: " ++
        (match m.rvh_criteria_detail with | some d => d | none => "None")] else []) ++
    ["Primary finding: " ++ classifier_output.primary_finding]
  let modeled_assumption :=
    ["Activation sequence: modeled from '" ++ archetype_id ++
      "' archetype — represents a teaching reconstruction, not direct measurement",
     "Conduction system state: inferred from surface ECG patterns; intracardiac recordings would provide direct confirmation",
     "Propagation direction vectors: approximate based on standard cardiac anatomy; actual propagation varies with individual anatomy"] ++
    (if m.st_deviations.any (fun st => decide ((0.1 : ℚ) < |st.deviation_mv|)) then
      ["Injury current localization: based on standard lead-territory mapping; actual coronary anatomy varies between individuals"]
     else [])
  ⟨evidence_supported, modeled_assumption⟩

/-- The assembly step of `build_visualization_parameters` once the
archetype id and archetype record are fixed. -/
def build_viz_assemble (fo : FloatOracle) (classifier_output : ClassifierOutput)
    (m : Measurements) (metadata : ECGMetadata) (session_id : Option String)
    (archetype_id : String) (archetype : Archetype) : VisualizationParameterJSON :=
  ⟨session_id, metadata, m,
   ⟨classifier_output.primary_finding, classifier_output.differentials,
    classifier_output.rhythm, classifier_output.conduction_abnormalities⟩,
   build_activation_sequence archetype,
   build_conduction_system archetype classifier_output m,
   build_repolarization fo m,
   archetype_id,
   build_uncertainty fo classifier_output m archetype_id,
   build_display_contract fo m classifier_output archetype_id,
   [], false⟩

/-- `mapper/parameter_builder.py` `build_visualization_parameters`. -/
def build_visualization_parameters (fo : FloatOracle)
    (classifier_output : ClassifierOutput) (m : Measurements)
    (metadata : ECGMetadata) (session_id : Option String) :
    VisualizationParameterJSON :=
  let primary_finding_key := extract_finding_key classifier_output
  let archetype_id := find_best_archetype primary_finding_key
  match get_archetype archetype_id with
  | some archetype =>
    build_viz_assemble fo classifier_output m metadata session_id archetype_id archetype
  | none =>
    build_viz_assemble fo classifier_output m metadata session_id "normal_sinus"
      NORMAL_SINUS

/-- `models/schemas.py` `LeadTimeseries`. -/
structure LeadTimeseries where
  lead_name : String
  time_ms : List ℚ
  amplitude_mv : List ℚ
  sample_rate_hz : ℚ
  confidence : ℚ
  failure_reason : Option String
deriving DecidableEq

/-- `models/schemas.py` `DigitizedECG`. -/
structure DigitizedECG where
  session_id : String
  metadata : ECGMetadata
  leads : List LeadTimeseries
  is_stitched : Bool
  warnings : List String
  ready_for_interpretation : Bool
deriving DecidableEq

/-- `agents/ecg_specialist.py` `ECGSpecialistInput` (the PIL image and
PDF byte payloads are only ever tested for presence by the orchestrator
path modelled here, so they are reduced to presence flags). -/
structure ECGSpecialistInput where
  image : Option Unit
  pdf_bytes : Option Unit
  session_id : String

/-- `agents/ecg_specialist.py` `ECGSpecialistOutput` (the two numpy image
fields `preprocessed_gray` / `debug_overlay` carry no claim-relevant
data and are dropped). -/
structure ECGSpecialistOutput where
  digitized_ecg : Option DigitizedECG
  measurements : Option Measurements
  success : Bool
  error : Option String
  warnings : List String

/-- `agents/cardiologist.py` `CardiologistInput`. -/
structure CardiologistInput where
  measurements : Measurements

/-- `agents/cardiologist.py` `CardiologistOutput`. -/
structure CardiologistOutput where
  classifier_output : Option ClassifierOutput
  success : Bool
  error : Option String
  warnings : List String

/-- `agents/physiologist.py` `PhysiologistInput`. -/
structure PhysiologistInput where
  classifier_output : ClassifierOutput
  measurements : Measurements

/-- `agents/physiologist.py` `PhysiologistOutput`. -/
structure PhysiologistOutput where
  archetype_id : String
  uncertainty : Option Uncertainty
  success : Bool
  error : Option String
  warnings : List String

/-- `agents/artist.py` `ArtistInput`. -/
structure ArtistInput where
  classifier_output : ClassifierOutput
  measurements : Measurements
  metadata : ECGMetadata
  archetype_id : String
  uncertainty : Option Uncertainty
  session_id : Option String

/-- `agents/artist.py` `ArtistOutput`. -/
structure ArtistOutput where
  visualization : Option VisualizationParameterJSON
  success : Bool
  error : Option String
  warnings : List String

/-- `agents/orchestrator.py` `PipelineResult` (wall-clock timings and the
numpy debug images are not modelled). -/
structure PipelineResult where
  visualization : VisualizationParameterJSON
  digitized_ecg : Option DigitizedECG
  agent_errors : List (String × String)
  all_warnings : List String

/-- Rendering of a Python `Optional[str]` inside an f-string
(`None` renders as the string `"None"`). -/
def optStr : Option String → String
  | some s => s
  | none => "None"

/-- Python `output.error or "Unknown error"` (both `None` and the empty
string are falsy). -/
def orUnknown : Option String → String
  | some s => if s = "" then "Unknown error" else s
  | none => "Unknown error"

/-- The zero-valued `MeasurementValue` used by the orchestrator fallback. -/
def fallback_zero_mv : MeasurementValue := ⟨0, "", "fallback", 0⟩

/-- The zero-valued `Measurements` record the orchestrator fallback
builds when the ECG specialist produced no measurements. -/
def fallback_measurements : Measurements :=
  ⟨fallback_zero_mv, false, "", [], none, fallback_zero_mv, fallback_zero_mv,
   fallback_zero_mv, fallback_zero_mv, fallback_zero_mv, "", none,
   false, none, false, none, [], []⟩

/-- `agents/orchestrator.py` `Orchestrator._build_fallback_visualization`. -/
def build_fallback_visualization (session_id : String)
    (ecg_output : ECGSpecialistOutput) (warnings : List String) :
    VisualizationParameterJSON :=
  let metadata :=
    match ecg_output.digitized_ecg with
    | some d => d.metadata
    | none => (⟨25, 10, 12, AcquisitionType.simultaneous, []⟩ : ECGMetadata)
  let measurements :=
    match ecg_output.measurements with
    | some ms => ms
    | none => fallback_measurements
  ⟨some session_id, metadata, measurements,
   ⟨"Interpretation unavailable — pipeline degraded", [], "Unable to classify", []⟩,
   [],
   ⟨none, true, 120, true, false, false, false, none⟩,
   ⟨[], none, [], []⟩,
   "normal_sinus",
   ⟨["All parameters — pipeline failed before completion"], []⟩,
   ⟨[], ["All visualization elements are default values due to pipeline failure"]⟩,
   warnings, true⟩

/-- `agents/orchestrator.py` `Orchestrator._run_ecg_specialist`: the agent
output together with the warnings and error entries appended by the
wrapper (agent exceptions are modelled by the agent function returning a
`success := false` output). -/
def run_ecg_specialist (process : ECGSpecialistInput → ECGSpecialistOutput)
    (input : ECGSpecialistInput) :
    ECGSpecialistOutput × List String × List (String × String) :=
  let output := process input
  (output,
   output.warnings ++
     (if output.success then [] else ["ECG Specialist failed: " ++ optStr output.error]),
   if output.success then [] else [("ecg_specialist", orUnknown output.error)])

/-- `agents/orchestrator.py` `Orchestrator._run_cardiologist`. -/
def run_cardiologist (process : CardiologistInput → CardiologistOutput)
    (ecg_output : ECGSpecialistOutput) :
    CardiologistOutput × List String × List (String × String) :=
  match ecg_output.measurements with
  | none =>
    (⟨none, false, some "No measurements input", []⟩,
     ["Cardiologist skipped: no measurements available"],
     [("cardiologist", "Skipped — no input measurements")])
  | some ms =>
    let output := process ⟨ms⟩
    (output,
     output.warnings ++
       (if output.success then [] else ["Cardiologist failed: " ++ optStr output.error]),
     if output.success then [] else [("cardiologist", orUnknown output.error)])

/-- `agents/orchestrator.py` `Orchestrator._run_physiologist`. -/
def run_physiologist (process : PhysiologistInput → PhysiologistOutput)
    (cardio_output : CardiologistOutput) (ecg_output : ECGSpecialistOutput) :
    PhysiologistOutput × List String × List (String × String) :=
  match cardio_output.classifier_output, ecg_output.measurements with
  | some co, some ms =>
    let output := process ⟨co, ms⟩
    (output,
     output.warnings ++
       (if output.success then [] else ["Physiologist failed: " ++ optStr output.error]),
     if output.success then [] else [("physiologist", orUnknown output.error)])
  | _, _ =>
    (⟨"normal_sinus", none, false, some "Missing input data", []⟩,
     ["Physiologist skipped: missing classifier or measurement data"],
     [("physiologist", "Skipped — missing input")])

/-- `agents/orchestrator.py` `Orchestrator._run_artist`. -/
def run_artist (process : ArtistInput → ArtistOutput)
    (cardio_output : CardiologistOutput) (ecg_output : ECGSpecialistOutput)
    (physio_output : PhysiologistOutput) (session_id : String) :
    ArtistOutput × List String × List (String × String) :=
  match cardio_output.classifier_output, ecg_output.measurements,
      ecg_output.digitized_ecg with
  | some co, some ms, some dig =>
    let output := process
      ⟨co, ms, dig.metadata, physio_output.archetype_id, physio_output.uncertainty,
       some session_id⟩
    (output,
     output.warnings ++
       (if output.success then [] else ["Artist failed: " ++ optStr output.error]),
     if output.success then [] else [("artist", orUnknown output.error)])
  | _, _, _ =>
    (⟨none, false, some "Missing input data", []⟩,
     ["Artist skipped: missing upstream data"],
     [("artist", "Skipped — missing input")])

/-- `agents/orchestrator.py` `Orchestrator.run`, parameterised over the
four agent `process` functions it composes (per-stage wall-clock timings
are not modelled). -/
def orchestrator_run (eProc : ECGSpecialistInput → ECGSpecialistOutput)
    (cProc : CardiologistInput → CardiologistOutput)
    (pProc : PhysiologistInput → PhysiologistOutput)
    (aProc : ArtistInput → ArtistOutput)
    (input : ECGSpecialistInput) : PipelineResult :=
  let ecgR := run_ecg_specialist eProc input
  let cardioR := run_cardiologist cProc ecgR.1
  let physioR := run_physiologist pProc cardioR.1 ecgR.1
  let artistR := run_artist aProc cardioR.1 ecgR.1 physioR.1 input.session_id
  let warnings := ecgR.2.1 ++ cardioR.2.1 ++ physioR.2.1 ++ artistR.2.1
  let degraded :=
    !ecgR.1.success || !cardioR.1.success || !physioR.1.success || !artistR.1.success
  let viz0 :=
    match artistR.1.visualization with
    | some v => v
    | none => build_fallback_visualization input.session_id ecgR.1 warnings
  let viz : VisualizationParameterJSON :=
    ⟨viz0.session_id, viz0.ecg_metadata, viz0.measurements, viz0.interpretation,
     viz0.activation_sequence, viz0.conduction_system, viz0.repolarization,
     viz0.mechanical_archetype, viz0.uncertainty, viz0.display_contract,
     warnings, degraded⟩
  ⟨viz, (if ecgR.1.success then ecgR.1.digitized_ecg else none),
   ecgR.2.2 ++ cardioR.2.2 ++ physioR.2.2 ++ artistR.2.2, warnings⟩

/-- C1: for every pipeline run in which the ECG-specialist (digitizer)
stage produces no measurements, the orchestrator still returns the
fallback contract: primary diagnosis
"Interpretation unavailable — pipeline degraded", archetype
"normal_sinus", the zero-valued confidence-0 `fallback_measurements`
record, an empty activation sequence, `pipeline_degraded = true` and a
populated (non-empty) warnings list. -/
theorem C1_fallback_contract
    (eProc : ECGSpecialistInput → ECGSpecialistOutput)
    (cProc : CardiologistInput → CardiologistOutput)
    (pProc : PhysiologistInput → PhysiologistOutput)
    (aProc : ArtistInput → ArtistOutput)
    (input : ECGSpecialistInput)
    (h : (eProc input).measurements = none) :
    (orchestrator_run eProc cProc pProc aProc input).visualization.interpretation.primary_diagnosis
      = "Interpretation unavailable — pipeline degraded" ∧
    (orchestrator_run eProc cProc pProc aProc input).visualization.mechanical_archetype
      = "normal_sinus" ∧
    (orchestrator_run eProc cProc pProc aProc input).visualization.measurements
      = fallback_measurements ∧
    (orchestrator_run eProc cProc pProc aProc input).visualization.activation_sequence = [] ∧
    (orchestrator_run eProc cProc pProc aProc input).visualization.pipeline_degraded = true ∧
    (orchestrator_run eProc cProc pProc aProc input).visualization.pipeline_warnings ≠ [] := by
  simp only [orchestrator_run, run_ecg_specialist, run_cardiologist, run_physiologist,
    run_artist, h, build_fallback_visualization, Bool.not_false, Bool.or_true]
  refine ⟨trivial, trivial, trivial, trivial, trivial, ?_⟩
  intro hnil
  rcases List.append_eq_nil.mp hnil with ⟨h1, -⟩
  rcases List.append_eq_nil.mp h1 with ⟨h2, -⟩
  rcases List.append_eq_nil.mp h2 with ⟨-, h3⟩
  exact List.cons_ne_nil _ _ h3

/-- The no-input run of the real ECG specialist.  Modelled from
`agents/ecg_specialist.py` lines 64–74: with neither a PDF nor an image,
`process` returns `success = False`, `error = "No image or PDF provided"`
and leaves every other field unset; no digitizer code runs. -/
def noInputEcgProcess : ECGSpecialistInput → ECGSpecialistOutput :=
  fun _ => ⟨none, none, false, some "No image or PDF provided", []⟩

/-- A cardiologist process; never invoked on the no-input run because the
orchestrator skips the stage when measurements are absent. -/
def unreachedCardiologist : CardiologistInput → CardiologistOutput :=
  fun _ => ⟨none, false, none, []⟩

/-- A physiologist process; never invoked on the no-input run. -/
def unreachedPhysiologist : PhysiologistInput → PhysiologistOutput :=
  fun _ => ⟨"normal_sinus", none, false, none, []⟩

/-- An artist process; never invoked on the no-input run. -/
def unreachedArtist : ArtistInput → ArtistOutput :=
  fun _ => ⟨none, false, none, []⟩

/-- The empty pipeline request: no image and no PDF bytes. -/
def noInputFixture : ECGSpecialistInput := ⟨none, none, "session-empty"⟩

theorem C1_fallback_contract_witness :
    (noInputEcgProcess noInputFixture).measurements = none ∧
    (orchestrator_run noInputEcgProcess unreachedCardiologist unreachedPhysiologist
      unreachedArtist noInputFixture).visualization.pipeline_degraded = true :=
  ⟨rfl,
    (C1_fallback_contract noInputEcgProcess unreachedCardiologist unreachedPhysiologist
      unreachedArtist noInputFixture rfl).2.2.2.2.1⟩

/-- A display string references the activation sequence when it contains
the word "activation" (either capitalisation) as a substring. -/
def mentionsActivation (s : String) : Prop :=
  "activation".toList <:+: s.toList ∨ "Activation".toList <:+: s.toList

instance (s : String) : Decidable (mentionsActivation s) :=
  inferInstanceAs
    (Decidable ("activation".toList <:+: s.toList ∨ "Activation".toList <:+: s.toList))

theorem mentionsActivation_modeled (id suffix : String) :
    mentionsActivation (("Activation sequence: modeled from '" ++ id) ++ suffix) := by
  right
  have hsplit : ("Activation sequence: modeled from '" : String)
      = "Activation" ++ " sequence: modeled from '" := rfl
  have h1 : ((("Activation sequence: modeled from '" : String) ++ id) ++ suffix).toList
      = "Activation".toList ++
        ((" sequence: modeled from '".toList ++ id.toList) ++ suffix.toList) := by
    rw [hsplit]
    simp [String.toList, String.data_append]
  rw [h1]
  exact ⟨[], (" sequence: modeled from '".toList ++ id.toList) ++ suffix.toList, by simp⟩

/-- C3 fails on the code: on the no-input (degraded, fallback-contract)
run the emitted `display_contract.modeled_assumption` is exactly the one
generic default-values statement, which does not reference the
activation sequence. -/
theorem C3_counterexample_fallback_no_activation_statement :
    (orchestrator_run noInputEcgProcess unreachedCardiologist unreachedPhysiologist
      unreachedArtist noInputFixture).visualization.display_contract.modeled_assumption
      = ["All visualization elements are default values due to pipeline failure"] ∧
    ¬ mentionsActivation
      "All visualization elements are default values due to pipeline failure" :=
  ⟨rfl, by decide⟩

/-- C3 (amended): every contract assembled by the parameter builder
carries in `display_contract.modeled_assumption` a statement referencing
the activation sequence; on runs taking the orchestrator fallback path
the modeled-assumption list is instead the single generic
default-values statement (non-empty, but not about the activation
sequence). -/
theorem C3_amended_modeled_assumption_mentions_activation :
    (∀ (fo : FloatOracle) (co : ClassifierOutput) (m : Measurements)
        (meta : ECGMetadata) (sid : Option String),
      ∃ s ∈ (build_visualization_parameters fo co m meta
        sid).display_contract.modeled_assumption, mentionsActivation s) ∧
    (∀ (sid : String) (eo : ECGSpecialistOutput) (w : List String),
      (build_fallback_visualization sid eo w).display_contract.modeled_assumption =
        ["All visualization elements are default values due to pipeline failure"]) := by
  constructor
  · intro fo co m meta sid
    simp only [build_visualization_parameters]
    split
    · simp only [build_viz_assemble, build_display_contract, List.cons_append,
        List.nil_append]
      exact ⟨_, List.mem_cons_self _ _, mentionsActivation_modeled _ _⟩
    · simp only [build_viz_assemble, build_display_contract, List.cons_append,
        List.nil_append]
      exact ⟨_, List.mem_cons_self _ _, mentionsActivation_modeled _ _⟩
  · intro sid eo w
    simp [build_fallback_visualization]

/-- Every checker's display name starts with "Pattern consistent with" or
"Finding suggestive of", except `normal_sinus`, whose display name is the
bare "Normal sinus rhythm". -/
theorem display_name_shape {m : Measurements} {c : FindingCandidate}
    (hc : c ∈ rawCandidates m) :
    "Pattern consistent with".toList <+: c.display_name.toList ∨
    "Finding suggestive of".toList <+: c.display_name.toList ∨
    c.display_name = "Normal sinus rhythm" := by
  simp only [rawCandidates, List.mem_map] at hc
  obtain ⟨f, hf, rfl⟩ := hc
  simp only [ALL_CHECKERS, List.mem_cons, List.not_mem_nil, or_false] at hf
  rcases hf with rfl | rfl | rfl | rfl | rfl | rfl | rfl | rfl | rfl | rfl | rfl |
    rfl | rfl | rfl | rfl | rfl | rfl | rfl | rfl | rfl | rfl | rfl | rfl | rfl |
    rfl | rfl | rfl <;>
    simp only [check_normal_sinus, check_sinus_tachycardia, check_sinus_bradycardia,
      check_atrial_fibrillation, check_atrial_flutter, check_svt, check_rbbb,
      check_lbbb, check_lafb, check_lpfb, check_first_degree_av_block,
      check_second_degree_mobitz_i, check_second_degree_mobitz_ii,
      check_third_degree_av_block, check_wpw, check_lvh, check_rvh,
      check_inferior_stemi, check_anterior_stemi, check_lateral_stemi,
      check_posterior_stemi, check_nstemi, check_early_repolarization,
      check_pericarditis, check_digitalis_effect, check_hypokalemia,
      check_hyperkalemia] <;> decide

theorem build_primary_diagnosis (fo : FloatOracle) (co : ClassifierOutput)
    (m : Measurements) (meta : ECGMetadata) (sid : Option String) :
    (build_visualization_parameters fo co m meta sid).interpretation.primary_diagnosis =
      co.primary_finding := by
  simp only [build_visualization_parameters]
  split <;> simp only [build_viz_assemble]

/-- A concrete rendering oracle for closed evaluations; none of the
fields it renders are inspected by any claim. -/
def plainOracle : FloatOracle := ⟨fun _ => "", fun _ => "", fun _ => "", fun _ _ => 0⟩

/-- The default metadata used in fixtures (paper speed 25 mm/s,
amplitude scale 10 mm/mV). -/
def defaultMetadataFixture : ECGMetadata := ⟨25, 10, 12, AcquisitionType.simultaneous, []⟩

set_option maxRecDepth 200000 in
unseal Rat.mul Rat.inv Rat.add Rat.sub Rat.ofScientific in
/-- C2 fails on the code: on a textbook-normal input the winning checker
is `normal_sinus`, whose display name "Normal sinus rhythm" begins with
neither required prefix and is not a sentinel, and it is emitted verbatim
as the contract primary diagnosis. -/
theorem C2_counterexample_normal_sinus_primary :
    (build_visualization_parameters plainOracle (classify normalSinusFixture)
        normalSinusFixture defaultMetadataFixture none).interpretation.primary_diagnosis
      = "Normal sinus rhythm" ∧
    ¬ ("Pattern consistent with".toList <+: ("Normal sinus rhythm").toList) ∧
    ¬ ("Finding suggestive of".toList <+: ("Normal sinus rhythm").toList) ∧
    ("Normal sinus rhythm" : String) ≠ "Indeterminate — insufficient data" ∧
    ("Normal sinus rhythm" : String) ≠ "Interpretation unavailable — pipeline degraded" := by
  refine ⟨?_, by decide, by decide, by decide, by decide⟩
  rw [build_primary_diagnosis]
  decide

theorem classify_primary_cases (m : Measurements) :
    (keptCandidates m = [] ∧ classify_primary m = "Indeterminate — insufficient data") ∨
    (∃ c rest, keptCandidates m = c :: rest ∧ classify_primary m = c.display_name) := by
  unfold classify_primary
  generalize keptCandidates m = K
  cases K with
  | nil => exact Or.inl ⟨rfl, by simp⟩
  | cons c rest => exact Or.inr ⟨c, rest, rfl, by simp [toDifferential]⟩

/-- C2 (amended): the primary diagnosis of every contract assembled from
a classifier run either begins with "Pattern consistent with" or
"Finding suggestive of", or equals the prefix-less normal-sinus display
name "Normal sinus rhythm", or equals the classifier sentinel
"Indeterminate — insufficient data"; the orchestrator fallback contract
carries the degraded-pipeline sentinel. -/
theorem C2_amended_primary_diagnosis_shape :
    (∀ (fo : FloatOracle) (mm m : Measurements) (meta : ECGMetadata)
        (sid : Option String),
      ("Pattern consistent with".toList <+:
        (build_visualization_parameters fo (classify mm) m meta
          sid).interpretation.primary_diagnosis.toList) ∨
      ("Finding suggestive of".toList <+:
        (build_visualization_parameters fo (classify mm) m meta
          sid).interpretation.primary_diagnosis.toList) ∨
      (build_visualization_parameters fo (classify mm) m meta
          sid).interpretation.primary_diagnosis = "Normal sinus rhythm" ∨
      (build_visualization_parameters fo (classify mm) m meta
          sid).interpretation.primary_diagnosis = "Indeterminate — insufficient data") ∧
    (∀ (sid : String) (eo : ECGSpecialistOutput) (w : List String),
      (build_fallback_visualization sid eo w).interpretation.primary_diagnosis =
        "Interpretation unavailable — pipeline degraded") := by
  constructor
  · intro fo mm m meta sid
    rw [build_primary_diagnosis]
    have hpf : (classify mm).primary_finding = classify_primary mm := by
      simp only [classify]
    rw [hpf]
    rcases classify_primary_cases mm with ⟨-, hp⟩ | ⟨c, rest, hk, hp⟩
    · rw [hp]
      exact Or.inr (Or.inr (Or.inr rfl))
    · rw [hp]
      have hcmem : c ∈ keptCandidates mm := by
        rw [hk]
        exact List.mem_cons_self _ _
      rcases display_name_shape (mem_raw_of_mem_kept hcmem) with h | h | h
      · exact Or.inl h
      · exact Or.inr (Or.inl h)
      · exact Or.inr (Or.inr (Or.inl h))
  · intro sid eo w
    exact rfl

/-! ### Uncertainty engine (`mapper/uncertainty_engine.py`) -/

/-- Character-wise lowercasing, modelling Python `str.lower()`
(`name_lower = diff.name.lower()`) on the ASCII strings this module
handles. -/
def strLower (s : String) : String := ⟨s.data.map Char.toLower⟩

/-- `pattern_key.replace("_", " ")` from `_extract_finding_keys`. -/
def spacedKey (s : String) : String :=
  ⟨s.data.map (fun c => if c = '_' then ' ' else c)⟩

/-- One entry of the `AMBIGUITY_PATTERNS` dict of
`mapper/uncertainty_engine.py`: the key pair and the value attached to it. -/
structure AmbiguityEntry where
  key1 : String
  key2 : String
  description : String
  discriminating_tests : List String
deriving DecidableEq

/-- `mapper/uncertainty_engine.py` `AMBIGUITY_PATTERNS`, in the dict's
insertion order. -/
def AMBIGUITY_PATTERNS : List AmbiguityEntry := [
  ⟨"inferior_stemi", "early_repolarization",
   "Inferior ST elevation may reflect acute injury or normal variant",
   ["Serial ECGs (dynamic changes favor injury)",
    "High-sensitivity troponin trend",
    "Reciprocal changes (favor injury)",
    "Clinical presentation and risk factors"]⟩,
  ⟨"anterior_stemi", "early_repolarization",
   "Precordial ST elevation — STEMI vs benign early repolarization",
   ["Smith-modified Sgarbossa criteria if LBBB present",
    "Serial troponin levels",
    "ST/T ratio analysis",
    "Clinical context and symptom onset"]⟩,
  ⟨"pericarditis", "inferior_stemi",
   "Diffuse ST elevation — pericarditis vs multi-territory ischemia",
   ["PR depression in II (favors pericarditis)",
    "ST elevation in aVR (favors ischemia)",
    "Spodick sign (downsloping TP, favors pericarditis)",
    "Echocardiogram for effusion"]⟩,
  ⟨"lbbb", "lvh",
   "Wide QRS with high voltage — LBBB vs LVH vs both",
   ["Echocardiogram for wall thickness and LVEF",
    "Prior ECG comparison for new vs old LBBB",
    "Peguero-Lo Presti criteria for LVH in LBBB"]⟩,
  ⟨"rbbb", "rvh",
   "Right-sided ECG changes — RBBB vs RVH vs both",
   ["Echocardiogram for RV size and function",
    "Pulmonary function tests",
    "CT pulmonary angiogram if PE suspected"]⟩,
  ⟨"wpw", "lbbb",
   "Wide QRS with short PR — WPW vs LBBB with short PR",
   ["Delta wave morphology analysis",
    "Electrophysiology study",
    "Prior ECGs for intermittent pre-excitation"]⟩,
  ⟨"hyperkalemia", "third_degree_av_block",
   "Wide QRS with bradycardia — hyperkalemia vs high-grade AV block",
   ["Stat potassium level",
    "Calcium administration trial (if hyperK suspected)",
    "Prior ECGs for baseline QRS width"]⟩]

/-- `mapper/uncertainty_engine.py` `_extract_finding_keys`: for each
differential with probability ≥ 0.3, every table key whose spaced form is a
substring of the lowercased differential name, appended in loop order. -/
def extract_finding_keys (classifier_output : ClassifierOutput) : List String :=
  classifier_output.differentials.flatMap (fun diff =>
    if (0.3 : ℚ) ≤ diff.probability then
      AMBIGUITY_PATTERNS.flatMap (fun e =>
        ([e.key1, e.key2]).filter (fun k =>
          strContainsB (strLower diff.name) (spacedKey k)))
    else [])

/-- `mapper/uncertainty_engine.py` `_assess_diagnostic_ambiguity`: one
`AlternateModel` per table pair of which at least one key is among the
finding keys, carrying the description and the first two discriminating
tests joined by `"; "`. -/
def assess_diagnostic_ambiguity (finding_keys : List String) : List AlternateModel :=
  AMBIGUITY_PATTERNS.filterMap (fun e =>
    if finding_keys.contains e.key1 || finding_keys.contains e.key2 then
      some ⟨e.description,
            String.intercalate "; " (e.discriminating_tests.take 2)⟩
    else none)

/-- A classifier output whose only differential is pericarditis at
probability 0.5; no differential references inferior STEMI. -/
def pericarditisOnlyOutput : ClassifierOutput :=
  ⟨"Pattern consistent with pericarditis",
   [⟨"Pattern consistent with pericarditis", some "I30.9", 0.5,
     ProbabilityTier.moderate, [], [], []⟩],
   "sinus rhythm", []⟩

unseal Rat.mul Rat.inv Rat.add Rat.sub Rat.ofScientific in
set_option maxRecDepth 100000 in
/-- C7, counterexample: on a classifier output whose single differential is
"Pattern consistent with pericarditis" at probability 0.5, the uncertainty
engine emits the pericarditis ↔ inferior-STEMI alternate entry even though no
differential (of any probability) references inferior STEMI, so an entry is
not emitted "exactly when both members of the pair appear among the
classifier differentials with probability ≥ 0.2". -/
theorem C7_counterexample_one_sided_pair_emission :
    assess_diagnostic_ambiguity (extract_finding_keys pericarditisOnlyOutput) =
      [⟨"Diffuse ST elevation — pericarditis vs multi-territory ischemia",
        "PR depression in II (favors pericarditis); ST elevation in aVR (favors ischemia)"⟩] ∧
    ∀ d ∈ pericarditisOnlyOutput.differentials,
      strContainsB (strLower d.name) (spacedKey "inferior_stemi") = false := by
  exact ⟨by decide, by decide⟩

/-- Membership in an `if c then l else []`. -/
theorem mem_ite_nil {α : Type} {c : Prop} [Decidable c] {l : List α} {a : α} :
    a ∈ (if c then l else []) ↔ c ∧ a ∈ l := by
  by_cases h : c <;> simp [h]

/-- The amended reading of "pair member `k` occurs among the differentials":
some differential with probability ≥ 0.3 has a lowercased name containing
`k` with underscores replaced by spaces. -/
def keyOccurs (classifier_output : ClassifierOutput) (k : String) : Bool :=
  classifier_output.differentials.any (fun d =>
    decide ((0.3 : ℚ) ≤ d.probability) &&
      strContainsB (strLower d.name) (spacedKey k))

/-- For a key of the ambiguity table, membership in the extracted finding
keys coincides with `keyOccurs`. -/
theorem contains_extract_eq_keyOccurs (co : ClassifierOutput) (k : String)
    (hk : ∃ e ∈ AMBIGUITY_PATTERNS, k = e.key1 ∨ k = e.key2) :
    (extract_finding_keys co).contains k = keyOccurs co k := by
  rcases hk with ⟨e, he, hk⟩
  rw [Bool.eq_iff_iff]
  simp only [extract_finding_keys, keyOccurs, List.elem_iff,
    List.mem_flatMap, List.any_eq_true, Bool.and_eq_true, decide_eq_true_eq,
    List.mem_filter, mem_ite_nil]
  constructor
  · rintro ⟨d, hd, hp, e2, he2, hkmem, hsub⟩
    exact ⟨d, hd, hp, hsub⟩
  · rintro ⟨d, hd, hp, hsub⟩
    refine ⟨d, hd, hp, e, he, ?_, hsub⟩
    rcases hk with h | h <;> simp [h]

/-- C7, amended: for every classifier output, the uncertainty engine emits
exactly one alternate-model entry per ambiguity-table pair of which at least
one member key occurs — as a spaced substring of the lowercased name of some
differential with probability ≥ 0.3 — and the entry carries the pair's
description and its first two discriminating tests joined by "; ". -/
theorem C7_amended_ambiguity_characterization (co : ClassifierOutput) :
    assess_diagnostic_ambiguity (extract_finding_keys co) =
      AMBIGUITY_PATTERNS.filterMap (fun e =>
        if keyOccurs co e.key1 || keyOccurs co e.key2 then
          some ⟨e.description,
                String.intercalate "; " (e.discriminating_tests.take 2)⟩
        else none) := by
  unfold assess_diagnostic_ambiguity
  apply List.filterMap_congr
  intro e he
  rw [contains_extract_eq_keyOccurs co e.key1 ⟨e, he, Or.inl rfl⟩,
      contains_extract_eq_keyOccurs co e.key2 ⟨e, he, Or.inr rfl⟩]

/-! ### Stitching detection (`digitizer/waveform_extractor.py`) -/

/-- The per-lead durations `detect_stitching` collects:
`time_ms[-1] - time_ms[0]` for every lead with a nonempty `time_ms` and no
failure reason. -/
def stitchDurations (leads : List LeadTimeseries) : List ℚ :=
  leads.filterMap (fun lead =>
    match lead.time_ms, lead.failure_reason with
    | t :: ts, none => some (ts.getLastD t - t)
    | _, _ => none)

/-- `np.median`: the middle element of the sorted list, or the mean of the
two middle elements when the length is even. -/
def npMedian (xs : List ℚ) : ℚ :=
  let s := xs.insertionSort (· ≤ ·)
  let n := xs.length
  if n % 2 = 1 then s.getD (n / 2) 0
  else (s.getD (n / 2 - 1) 0 + s.getD (n / 2) 0) / 2

/-- `digitizer/waveform_extractor.py` `detect_stitching`. -/
def detect_stitching (leads : List LeadTimeseries) : Bool :=
  if leads.length < 4 then false
  else
    match stitchDurations leads with
    | [] => false
    | d :: ds => decide (npMedian (d :: ds) < 4000)

/-- The `acquisition_type` that `extract_all_leads` stores in the metadata:
`STITCHED` when `detect_stitching` fires, else `SIMULTANEOUS`. -/
def acquisitionOf (leads : List LeadTimeseries) : AcquisitionType :=
  if detect_stitching leads then AcquisitionType.stitched
  else AcquisitionType.simultaneous

/-- A non-failed lead spanning 0–2500 ms. -/
def shortLead (nm : String) : LeadTimeseries :=
  ⟨nm, [0, 2500], [0, 0], 250, 0.9, none⟩

/-- Three short leads: below the `len(leads) < 4` cutoff. -/
def threeShortLeads : List LeadTimeseries :=
  [shortLead "I", shortLead "II", shortLead "III"]

unseal Rat.mul Rat.inv Rat.add Rat.sub Rat.ofScientific in
set_option maxRecDepth 100000 in
/-- C9, counterexample: three non-failed leads of 2500 ms each have a median
duration 2500 < 4000 ms, yet the acquisition is flagged `simultaneous`
because `detect_stitching` returns `False` outright for fewer than 4 leads —
so "stitched iff median duration < 4000 ms" does not hold for every list of
leads. -/
theorem C9_counterexample_three_short_leads :
    npMedian (stitchDurations threeShortLeads) < 4000 ∧
    stitchDurations threeShortLeads ≠ [] ∧
    acquisitionOf threeShortLeads = AcquisitionType.simultaneous := by
  exact ⟨by decide, by decide, by decide⟩

/-- C9, amended: for at least 4 leads of which at least one non-failed lead
has a nonempty time series, the acquisition type is `stitched` iff the median
of the collected durations is below 4000 ms. -/
theorem C9_amended_stitching_rule (leads : List LeadTimeseries)
    (h4 : 4 ≤ leads.length) (hne : stitchDurations leads ≠ []) :
    acquisitionOf leads = AcquisitionType.stitched ↔
      npMedian (stitchDurations leads) < 4000 := by
  have hlt : ¬ leads.length < 4 := by omega
  cases hD : stitchDurations leads with
  | nil => exact absurd hD hne
  | cons d ds =>
    unfold acquisitionOf detect_stitching
    rw [if_neg hlt, hD]
    by_cases hm : npMedian (d :: ds) < 4000 <;> simp [hm]

/-- Four short leads: above the cutoff, median 2500 ms. -/
def fourShortLeads : List LeadTimeseries :=
  [shortLead "I", shortLead "II", shortLead "III", shortLead "aVR"]

unseal Rat.mul Rat.inv Rat.add Rat.sub Rat.ofScientific in
set_option maxRecDepth 100000 in
/-- Witness for the amended C9 theorem at the four-lead fixture. -/
theorem C9_amended_stitching_rule_witness :
    acquisitionOf fourShortLeads = AcquisitionType.stitched :=
  (C9_amended_stitching_rule fourShortLeads (by decide) (by decide)).mpr (by decide)

/-! ### T-wave polarity (`interpreter/measurements.py`) -/

/-- `interpreter/measurements.py` `_get_lead`: the first lead with the given
name and no failure reason. -/
def get_lead (leads : List LeadTimeseries) (name : String) : Option LeadTimeseries :=
  leads.find? (fun lead =>
    decide (lead.lead_name = name ∧ lead.failure_reason = none))

/-- The polarity branch of `measure_t_waves` on the mean T amplitude. -/
def tWavePolarity (mean_amp : ℚ) : TWaveMorphology :=
  if 0.05 < mean_amp then TWaveMorphology.upright
  else if mean_amp < -0.05 then TWaveMorphology.inverted
  else if |mean_amp| ≤ 0.05 then TWaveMorphology.flat
  else TWaveMorphology.biphasic

/-- `np.mean` of a list. -/
def listMean (xs : List ℚ) : ℚ := xs.sum / xs.length

/-- The 12 lead names `measure_t_waves` iterates over. -/
def tWaveLeadNames : List String :=
  ["I", "II", "III", "aVR", "aVL", "aVF", "V1", "V2", "V3", "V4", "V5", "V6"]

/-- `interpreter/measurements.py` `measure_t_waves`, with the per-beat
T-amplitude extraction (R-peak detection and the numpy window analysis)
abstracted as the oracle `tAmps`: for each lead it stands for the
`t_amplitudes` list the DSP loop produces — empty when no R peak or window
yields a value, in which case the lead is skipped. -/
def measure_t_waves (tAmps : LeadTimeseries → List ℚ)
    (leads : List LeadTimeseries) : List TWaveDetail :=
  tWaveLeadNames.filterMap (fun lead_name =>
    match get_lead leads lead_name with
    | none => none
    | some lead =>
      match tAmps lead with
      | [] => none
      | a :: rest =>
        let mean_amp := listMean (a :: rest)
        some ⟨lead_name, tWavePolarity mean_amp, some (round3 mean_amp)⟩)

/-- C10: the polarity branch of `measure_t_waves` never yields `biphasic`:
the mean amplitude is classified `upright` iff it exceeds 0.05 mV,
`inverted` iff it is below −0.05 mV, `flat` iff its absolute value is at
most 0.05 mV, and these cases cover every amplitude, so every emitted
`TWaveDetail` has a non-biphasic polarity for every DSP outcome. -/
theorem C10_no_biphasic_t_wave :
    (∀ q : ℚ,
      tWavePolarity q ≠ TWaveMorphology.biphasic ∧
      (tWavePolarity q = TWaveMorphology.upright ↔ 0.05 < q) ∧
      (tWavePolarity q = TWaveMorphology.inverted ↔ q < -0.05) ∧
      (tWavePolarity q = TWaveMorphology.flat ↔ |q| ≤ 0.05)) ∧
    (∀ (tAmps : LeadTimeseries → List ℚ) (leads : List LeadTimeseries),
      ∀ d ∈ measure_t_waves tAmps leads,
        d.polarity ≠ TWaveMorphology.biphasic) := by
  have key : ∀ q : ℚ,
      tWavePolarity q ≠ TWaveMorphology.biphasic ∧
      (tWavePolarity q = TWaveMorphology.upright ↔ 0.05 < q) ∧
      (tWavePolarity q = TWaveMorphology.inverted ↔ q < -0.05) ∧
      (tWavePolarity q = TWaveMorphology.flat ↔ |q| ≤ 0.05) := by
    intro q
    unfold tWavePolarity
    split_ifs with h1 h2 h3
    · refine ⟨by simp, by simp [h1], ?_, ?_⟩
      · constructor
        · intro hcontra; exact absurd hcontra (by simp)
        · intro hlt; exact absurd (hlt.trans (by norm_num)) (not_lt.mpr h1.le)
      · constructor
        · intro hcontra; exact absurd hcontra (by simp)
        · intro habs; exact absurd h1 (not_lt.mpr (abs_le.mp habs).2)
    · refine ⟨by simp, ?_, by simp [h2], ?_⟩
      · exact ⟨fun hcontra => absurd hcontra (by simp), fun hgt => absurd hgt h1⟩
      · constructor
        · intro hcontra; exact absurd hcontra (by simp)
        · intro habs; exact absurd h2 (not_lt.mpr (abs_le.mp habs).1)
    · refine ⟨by simp, ?_, ?_, by simp [h3]⟩
      · exact ⟨fun hcontra => absurd hcontra (by simp), fun hgt => absurd hgt h1⟩
      · exact ⟨fun hcontra => absurd hcontra (by simp), fun hlt => absurd hlt h2⟩
    · exact absurd (abs_le.mpr ⟨le_of_not_lt h2, le_of_not_lt h1⟩) h3
  refine ⟨key, ?_⟩
  intro tAmps leads d hd
  unfold measure_t_waves at hd
  rw [List.mem_filterMap] at hd
  rcases hd with ⟨nm, hnm, heq⟩
  cases hG : get_lead leads nm with
  | none => simp [hG] at heq
  | some lead =>
    simp only [hG] at heq
    cases hA : tAmps lead with
    | nil => simp [hA] at heq
    | cons a rest =>
      simp only [hA, Option.some_inj] at heq
      rw [← heq]
      exact (key (listMean (a :: rest))).1

end EKG
